import Mathlib

/-!
# Device-mask translation of the audio wrapper (`common.cpp`)

A shallow embedding of the functions of `common.cpp`: the mask functions
`convert_ics_to_jb`, `convert_jb_to_ics`, `fixup_audio_devices` and
`convert_audio_devices`, the parameter rewriter `fixup_audio_parameters` and the loader
`load_vendor_module`.  A `uint32_t` mask is a natural number below `2 ^ 32`;
the bitwise operators of C are the bitwise operators of `Nat`, and the 32-bit
complement `~k` is `not32 k`.  The two preprocessor switches of the file are the
two fields of `Build`.  The log calls (`ALOGI`, `ALOGW`, `ALOGE`) do not take part in the
returned value and are left out.

The header `common.h` and the platform header `system/audio.h` are not among the sources.
The constants they declare are given here with the values of the two platform enumerations
that the spec describes: the old layout (outputs in bits 0–13 and `0x8000`, inputs in bits
16–23 and `0x80000000`) and the new layout (input marker in bit 31, default in bit 30).

The platform code that the two other functions call is injected: the parameter class
`android::AudioParameter` is a `Codec`, and `hw_get_module` and the `open` function of a
module are function arguments.  `specCodec` is a codec written after the spec, used where a
statement is about the text that the codec produces.
-/

namespace AudioWrapper

/-! ## Machine words -/

/-- The 32-bit complement `~x` of a 32-bit word `x`. -/
def not32 (x : Nat) : Nat := (0xFFFFFFFF ^^^ x) % 2 ^ 32

/-! ## Constants of the headers -/

/-- Modelled from the spec: the enumerator `ICS_AUDIO_DEVICE_OUT_DEFAULT` is declared in
`common.h`, which is not among the sources.  The old default-output bit is `0x8000`
(§8, "old-layout speaker+default mask `0x8000 | 0x0002`"). -/
def ICS_AUDIO_DEVICE_OUT_DEFAULT : Nat := 0x8000

/-- Modelled from the spec: `ICS_AUDIO_DEVICE_OUT_ALL` is declared in `common.h`, which is
not among the sources.  §3: "bits 0–13 encode up to 14 distinct output-device flags; one
reserved bit is the default output flag". -/
def ICS_AUDIO_DEVICE_OUT_ALL : Nat := 0x3FFF ||| ICS_AUDIO_DEVICE_OUT_DEFAULT

/-- Modelled from the spec: `ICS_AUDIO_DEVICE_IN_DEFAULT` is declared in `common.h`, which
is not among the sources.  The "old default-input bit pattern" of §4.1; the old platform
enumeration gives it the value `0x80000000`. -/
def ICS_AUDIO_DEVICE_IN_DEFAULT : Nat := 0x80000000

/-- Modelled from the spec: `ICS_AUDIO_DEVICE_IN_ALL` is declared in `common.h`, which is
not among the sources.  §3: "bits 16–23 encode up to 8 input-device flags", together with
the old default-input pattern. -/
def ICS_AUDIO_DEVICE_IN_ALL : Nat := 0x00FF0000 ||| ICS_AUDIO_DEVICE_IN_DEFAULT

/-- Modelled from the spec: `ICS_AUDIO_DEVICE_IN_BUILTIN_MIC` is declared in `common.h`,
which is not among the sources.  The "built-in microphone" input flag of §4.2; in the old
platform enumeration it is the third of the eight input flags, `0x40000`. -/
def ICS_AUDIO_DEVICE_IN_BUILTIN_MIC : Nat := 0x40000

/-- Modelled from the spec: `ICS_AUDIO_DEVICE_IN_VOICE_CALL` is declared in `common.h`,
which is not among the sources.  The "voice-call" input flag of §4.2; in the old platform
enumeration it is the seventh of the eight input flags, `0x400000`. -/
def ICS_AUDIO_DEVICE_IN_VOICE_CALL : Nat := 0x400000

/-- Modelled from the spec: `AUDIO_DEVICE_BIT_IN` comes from the platform header
`system/audio.h`, which is not among the sources.  §3: "the highest bit is reserved as an
is-input-device marker". -/
def AUDIO_DEVICE_BIT_IN : Nat := 0x80000000

/-- Modelled from the spec: `AUDIO_DEVICE_BIT_DEFAULT` comes from the platform header
`system/audio.h`, which is not among the sources.  §3: "one bit designated default per
direction"; the platform reserves bit 30 for it. -/
def AUDIO_DEVICE_BIT_DEFAULT : Nat := 0x40000000

/-- Modelled from the spec: `AUDIO_DEVICE_OUT_DEFAULT` comes from the platform header
`system/audio.h`, which is not among the sources.  The new default-output bit is the
reserved default bit. -/
def AUDIO_DEVICE_OUT_DEFAULT : Nat := AUDIO_DEVICE_BIT_DEFAULT

/-- Modelled from the spec: `AUDIO_DEVICE_IN_DEFAULT` comes from the platform header
`system/audio.h`, which is not among the sources.  The new default-input value is the
input marker together with the reserved default bit. -/
def AUDIO_DEVICE_IN_DEFAULT : Nat := AUDIO_DEVICE_BIT_IN ||| AUDIO_DEVICE_BIT_DEFAULT

/-- Modelled from the spec: `audio_is_output_devices` comes from the platform header
`system/audio.h`, which is not among the sources.  A new-layout mask is an output mask
when its input marker bit is clear. -/
def audio_is_output_devices (device : Nat) : Bool :=
  (device &&& AUDIO_DEVICE_BIT_IN) == 0

/-- Modelled from the spec: the enumeration `flags_conversion_mode_t` is declared in
`common.h`, which is not among the sources.  §6: "mode: enum{OLD_TO_NEW, NEW_TO_OLD}";
`ICS_TO_JB` is its first enumerator. -/
def ICS_TO_JB : Int := 0

/-- Modelled from the spec: the enumeration `flags_conversion_mode_t` is declared in
`common.h`, which is not among the sources.  `JB_TO_ICS` is its second enumerator. -/
def JB_TO_ICS : Int := 1

/-- `DEVICE_OUT_MASK` of `common.cpp`. -/
def DEVICE_OUT_MASK : Nat := 0x3FFF

/-- `DEVICE_IN_MASK` of `common.cpp`. -/
def DEVICE_IN_MASK : Nat := 0xFF

/-! ## Build configuration -/

/-- The two preprocessor switches that `common.cpp` tests. -/
structure Build where
  /-- The macro `CONVERT_AUDIO_DEVICES_T` is defined. -/
  CONVERT_AUDIO_DEVICES_T : Bool
  /-- The macro `NO_HTC_POLICY_MANAGER` is defined. -/
  NO_HTC_POLICY_MANAGER : Bool
deriving DecidableEq, Repr

/-! ## The functions of `common.cpp` -/

/-- `convert_ics_to_jb` of `common.cpp` (compiled under `CONVERT_AUDIO_DEVICES_T`). -/
def convert_ics_to_jb (ics_device : Nat) : Nat :=
  if (ics_device &&& not32 ICS_AUDIO_DEVICE_OUT_ALL) = 0 then
    let device := ics_device &&& not32 ICS_AUDIO_DEVICE_OUT_DEFAULT
    if (ics_device &&& ICS_AUDIO_DEVICE_OUT_DEFAULT) ≠ 0 then
      device ||| AUDIO_DEVICE_OUT_DEFAULT
    else
      device
  else if (ics_device &&& not32 ICS_AUDIO_DEVICE_IN_ALL) = 0 then
    let device :=
      ((ics_device &&& not32 ICS_AUDIO_DEVICE_IN_DEFAULT) >>> 16) ||| AUDIO_DEVICE_BIT_IN
    if (ics_device &&& ICS_AUDIO_DEVICE_IN_DEFAULT) = ICS_AUDIO_DEVICE_IN_DEFAULT then
      device ||| AUDIO_DEVICE_IN_DEFAULT
    else
      device
  else
    ics_device

/-- `convert_jb_to_ics` of `common.cpp` (compiled under `CONVERT_AUDIO_DEVICES_T`).  The
platform predicate `audio_is_output_devices` is the parameter `is_output`. -/
def convert_jb_to_ics (is_output : Nat → Bool) (device : Nat) : Nat :=
  if is_output device = true then
    let ics_device := device &&& DEVICE_OUT_MASK
    if (device &&& AUDIO_DEVICE_OUT_DEFAULT) ≠ 0 then
      ics_device ||| ICS_AUDIO_DEVICE_OUT_DEFAULT
    else
      ics_device
  else if (device &&& AUDIO_DEVICE_BIT_IN) = AUDIO_DEVICE_BIT_IN then
    let ics_device := ((device &&& DEVICE_IN_MASK) <<< 16) % 2 ^ 32
    if (device &&& AUDIO_DEVICE_IN_DEFAULT) = AUDIO_DEVICE_IN_DEFAULT then
      ics_device ||| ICS_AUDIO_DEVICE_IN_DEFAULT
    else
      ics_device
  else
    device

/-- `fixup_audio_devices` of `common.cpp`. -/
def fixup_audio_devices (b : Build) (device : Nat) : Nat :=
  if b.NO_HTC_POLICY_MANAGER = true then
    if (device &&& ICS_AUDIO_DEVICE_IN_BUILTIN_MIC) = ICS_AUDIO_DEVICE_IN_BUILTIN_MIC then
      (device &&& not32 ICS_AUDIO_DEVICE_IN_BUILTIN_MIC) ||| ICS_AUDIO_DEVICE_IN_VOICE_CALL
    else
      device
  else
    device

/-- `convert_audio_devices` of `common.cpp`; `mode` is the integer value of the
`flags_conversion_mode_t` argument. -/
def convert_audio_devices (b : Build) (is_output : Nat → Bool) (devices : Nat)
    (mode : Int) : Nat :=
  if mode = ICS_TO_JB then
    if b.CONVERT_AUDIO_DEVICES_T = true then convert_ics_to_jb devices else devices
  else if mode = JB_TO_ICS then
    let ret :=
      if b.CONVERT_AUDIO_DEVICES_T = true then convert_jb_to_ics is_output devices
      else devices
    fixup_audio_devices b ret
  else
    devices

/-! ## Signed and unsigned 32-bit integers -/

/-- Conversion of an `int` to `uint32_t`: the value modulo `2 ^ 32`. -/
def toUInt32 (v : Int) : Nat := (v % 2 ^ 32).toNat

/-- Conversion of a `uint32_t` to `int`: the integer with the same 32-bit two's-complement
bit pattern. -/
def toInt32 (u : Nat) : Int :=
  if u % 2 ^ 32 < 2 ^ 31 then ((u % 2 ^ 32 : Nat) : Int) else ((u % 2 ^ 32 : Nat) : Int) - 2 ^ 32

/-! ## The parameter rewriter -/

/-- The four operations of the platform class `android::AudioParameter` that
`fixup_audio_parameters` calls, as injected functions over a type `P` of parsed parameters:
the constructor from text, `getInt` (`some v` when it returns `NO_ERROR` with value `v`),
`addInt` and `toString`.  A C string is the list of its characters before the terminator. -/
structure Codec (P : Type) where
  /-- The constructor `AudioParameter(String8(kv_pairs))`. -/
  parse : List Char → P
  /-- The method `getInt(key, value)`. -/
  getInt : P → List Char → Option Int
  /-- The method `addInt(key, value)`. -/
  addInt : P → List Char → Int → P
  /-- The method `toString()`. -/
  toString : P → List Char

/-- Modelled from the spec: `android::AudioParameter::keyRouting` comes from the platform
header `media/AudioParameter.h`, which is not among the sources.  The routing key of §8 is
`routing`. -/
def keyRouting : List Char := "routing".toList

/-- The assignment `value = convert_audio_devices(value, mode)` of `fixup_audio_parameters`:
the `int` is passed as a `uint32_t` and the `uint32_t` result is stored in the `int`. -/
def convert_routing_value (b : Build) (is_output : Nat → Bool) (value : Int) (mode : Int) :
    Int :=
  toInt32 (convert_audio_devices b is_output (toUInt32 value) mode)

/-- The body of `fixup_audio_parameters` of `common.cpp`: the returned text, together with
the list of the arguments of the calls it makes to `convert_audio_devices`. -/
def fixup_audio_parameters_run {P : Type} (c : Codec P) (b : Build) (is_output : Nat → Bool)
    (kv_pairs : List Char) (mode : Int) : List Char × List (Nat × Int) :=
  let param := c.parse kv_pairs
  match c.getInt param keyRouting with
  | some value =>
    let value2 := convert_routing_value b is_output value mode
    (c.toString (c.addInt param keyRouting value2), [(toUInt32 value, mode)])
  | none => (kv_pairs, [])

/-- `fixup_audio_parameters` of `common.cpp`: the text it returns. -/
def fixup_audio_parameters {P : Type} (c : Codec P) (b : Build) (is_output : Nat → Bool)
    (kv_pairs : List Char) (mode : Int) : List Char :=
  (fixup_audio_parameters_run c b is_output kv_pairs mode).1

/-! ## A codec after the spec -/

/-- Modelled from the spec: the parameter codec is the platform class
`android::AudioParameter`, which is not among the sources.  §3: a blob is "an ordered
sequence of key=value pairs separated by a delimiter"; this function cuts a text at every
occurrence of the delimiter. -/
def splitAtChar (sep : Char) : List Char → List (List Char)
  | [] => [[]]
  | c :: cs =>
    if c = sep then [] :: splitAtChar sep cs
    else
      match splitAtChar sep cs with
      | [] => [[c]]
      | w :: ws => (c :: w) :: ws

/-- Modelled from the spec: the parse operation of the codec (§4.3 step 1), which is not
among the sources: the pairs of a blob in their order, pairs separated by `;`, key and value
by the first `=`. -/
def parsePairs (blob : List Char) : List (List Char × List Char) :=
  ((splitAtChar ';' blob).filter (fun w => !w.isEmpty)).map
    (fun w => (w.takeWhile (fun c => c != '='), (w.dropWhile (fun c => c != '=')).drop 1))

/-- Modelled from the spec: reading of an unsigned decimal numeral, part of the get-int
operation of the codec, which is not among the sources. -/
def parseDigits : List Char → Nat → Option Nat
  | [], acc => some acc
  | c :: cs, acc =>
    if '0' ≤ c ∧ c ≤ '9' then parseDigits cs (10 * acc + (c.toNat - '0'.toNat)) else none

/-- Modelled from the spec: reading of "a signed decimal integer" (§3) that fits an `int`,
part of the get-int operation of the codec, which is not among the sources. -/
def parseInt32 (s : List Char) : Option Int :=
  let r : Option Int :=
    match s with
    | [] => none
    | '-' :: cs => if cs.isEmpty then none else (parseDigits cs 0).map (fun n => -(n : Int))
    | cs => (parseDigits cs 0).map (fun n => (n : Int))
  r.bind (fun v => if -2 ^ 31 ≤ v ∧ v < 2 ^ 31 then some v else none)

/-- Modelled from the spec: the decimal rendering of an integer, part of the set-int
operation of the codec, which is not among the sources. -/
def renderInt (v : Int) : List Char :=
  if v < 0 then '-' :: Nat.toDigits 10 v.natAbs else Nat.toDigits 10 v.natAbs

/-- Modelled from the spec: the get-int-by-key operation of the codec (§4.3 step 2), which
is not among the sources. -/
def getIntPairs (ps : List (List Char × List Char)) (key : List Char) : Option Int :=
  (ps.lookup key).bind parseInt32

/-- Modelled from the spec: the set-int-by-key operation of the codec (§4.3 step 3, "write
the result back under the same key"), which is not among the sources: the value of an
existing key is replaced where it stands, a new key is added at the end. -/
def addIntPairs (ps : List (List Char × List Char)) (key : List Char) (v : Int) :
    List (List Char × List Char) :=
  if (ps.lookup key).isSome then
    ps.map (fun kv => if kv.1 = key then (kv.1, renderInt v) else kv)
  else
    ps ++ [(key, renderInt v)]

/-- Modelled from the spec: the serialize operation of the codec (§4.3 step 4), which is
not among the sources. -/
def serializePairs (ps : List (List Char × List Char)) : List Char :=
  List.intercalate [';'] (ps.map (fun kv => kv.1 ++ '=' :: kv.2))

/-- Modelled from the spec: the parameter codec of §4.3 (parse, get-int-by-key,
set-int-by-key, serialize) over ordered lists of pairs; the platform class
`android::AudioParameter` is not among the sources. -/
def specCodec : Codec (List (List Char × List Char)) where
  parse := parsePairs
  getInt := getIntPairs
  addInt := addIntPairs
  toString := serializePairs

/-! ## Module loading -/

/-- The part of the platform type `hw_module_t` that `load_vendor_module` uses: the field
`id` and the function `methods->open`, which receives the requested device name and the
current content of `*device` and returns its status and the new content of `*device`. -/
structure hw_module_t (Device : Type) where
  /-- The field `id`. -/
  id : List Char
  /-- The function `methods->open`, applied to the module itself. -/
  methods_open : List Char → Option Device → Int × Option Device

/-- What a call of `load_vendor_module` leaves behind: the returned status, the content of
`*device`, the name passed to `hw_get_module`, and whether `methods->open` was called. -/
structure LoadOutcome (Device : Type) where
  /-- The returned status. -/
  ret : Int
  /-- The content of `*device` on return; `none` is `NULL`. -/
  device : Option Device
  /-- The name passed to `hw_get_module`. -/
  module_name : List Char
  /-- Whether `methods->open` was called. -/
  open_called : Bool

/-- The text that `snprintf(buf, size, ...)` leaves in `buf` when the formatted text is
`s`: at most `size - 1` characters. -/
def snprintf (size : Nat) (s : List Char) : List Char := s.take (size - 1)

/-- `load_vendor_module` of `common.cpp`.  The constant `PATH_MAX` of `limits.h` and the
platform function `hw_get_module` (status and module found) are parameters; `device` is the
content of `*device` on entry and `inst` is `none` for a null pointer. -/
def load_vendor_module {Device : Type} (PATH_MAX : Nat)
    (hw_get_module : List Char → Int × hw_module_t Device)
    (wrapper_module : hw_module_t Device) (name : List Char) (device : Option Device)
    (inst : Option (List Char)) : LoadOutcome Device :=
  let module_name :=
    match inst with
    | some i => snprintf PATH_MAX ("vendor-".toList ++ wrapper_module.id ++ '.' :: i)
    | none => snprintf PATH_MAX ("vendor-".toList ++ wrapper_module.id)
  let found := hw_get_module module_name
  if found.1 ≠ 0 then
    ⟨found.1, none, module_name, false⟩
  else
    let opened := found.2.methods_open name device
    if opened.1 ≠ 0 then
      ⟨opened.1, none, module_name, true⟩
    else
      ⟨0, opened.2, module_name, true⟩


/-! ## Bit-level facts -/

theorem testBit_lt_of_lt {m n i : Nat} (hm : m < 2 ^ n) (h : m.testBit i = true) : i < n := by
  by_contra hn
  have hle : 2 ^ n ≤ 2 ^ i := Nat.pow_le_pow_right (by decide) (Nat.le_of_not_lt hn)
  have := Nat.testBit_lt_two_pow (Nat.lt_of_lt_of_le hm hle)
  simp [this] at h

theorem and_eq_zero_iff_bits {a b : Nat} :
    a &&& b = 0 ↔ ∀ i, a.testBit i = true → b.testBit i = false := by
  constructor
  · intro h i hi
    have := congrArg (fun x => x.testBit i) h
    simpa [hi] using this
  · intro h
    apply Nat.eq_of_testBit_eq
    intro i
    cases hi : a.testBit i
    · simp [hi]
    · simp [hi, h i hi]

theorem and_eq_right_iff_bits {a k : Nat} :
    a &&& k = k ↔ ∀ i, k.testBit i = true → a.testBit i = true := by
  constructor
  · intro h i hi
    have := congrArg (fun x => x.testBit i) h
    simpa [hi] using this
  · intro h
    apply Nat.eq_of_testBit_eq
    intro i
    cases hi : k.testBit i
    · simp [hi]
    · simp [hi, h i hi]

theorem and_two_pow_ne_zero_iff {a k : Nat} : a &&& 2 ^ k ≠ 0 ↔ a.testBit k = true := by
  rw [Ne, and_eq_zero_iff_bits]
  constructor
  · intro h
    by_contra hk
    apply h
    intro i hi
    rw [Nat.testBit_two_pow]
    by_contra hik
    simp at hik
    subst hik
    exact hk hi
  · intro hk h
    have := h k hk
    simp [Nat.testBit_two_pow_self] at this

theorem testBit_word_max (i : Nat) : Nat.testBit 0xFFFFFFFF i = decide (i < 32) :=
  Nat.testBit_two_pow_sub_one 32 i

theorem testBit_not32 (x i : Nat) :
    (not32 x).testBit i = (decide (i < 32) && !x.testBit i) := by
  unfold not32
  rw [Nat.testBit_mod_two_pow, Nat.testBit_xor, testBit_word_max]
  cases x.testBit i <;> cases decide (i < 32) <;> rfl

theorem testBit_ICS_AUDIO_DEVICE_OUT_DEFAULT (i : Nat) :
    ICS_AUDIO_DEVICE_OUT_DEFAULT.testBit i = decide (i = 15) := by
  show (2 ^ 15).testBit i = _
  rw [Nat.testBit_two_pow]
  exact decide_eq_decide.mpr eq_comm

theorem testBit_DEVICE_OUT_MASK (i : Nat) : DEVICE_OUT_MASK.testBit i = decide (i < 14) :=
  Nat.testBit_two_pow_sub_one 14 i

theorem testBit_DEVICE_IN_MASK (i : Nat) : DEVICE_IN_MASK.testBit i = decide (i < 8) :=
  Nat.testBit_two_pow_sub_one 8 i

theorem testBit_ICS_AUDIO_DEVICE_OUT_ALL (i : Nat) :
    ICS_AUDIO_DEVICE_OUT_ALL.testBit i = (decide (i < 14) || decide (i = 15)) := by
  unfold ICS_AUDIO_DEVICE_OUT_ALL
  rw [Nat.testBit_or, testBit_ICS_AUDIO_DEVICE_OUT_DEFAULT]
  congr 1
  exact Nat.testBit_two_pow_sub_one 14 i

theorem testBit_ICS_AUDIO_DEVICE_IN_DEFAULT (i : Nat) :
    ICS_AUDIO_DEVICE_IN_DEFAULT.testBit i = decide (i = 31) := by
  show (2 ^ 31).testBit i = _
  rw [Nat.testBit_two_pow]
  exact decide_eq_decide.mpr eq_comm

theorem testBit_old_input_flags (i : Nat) :
    Nat.testBit 0x00FF0000 i = (decide (16 ≤ i) && decide (i < 24)) := by
  show ((2 ^ 8 - 1) <<< 16).testBit i = _
  rw [Nat.testBit_shiftLeft, Nat.testBit_two_pow_sub_one]
  congr 1
  exact decide_eq_decide.mpr (by omega)

theorem testBit_ICS_AUDIO_DEVICE_IN_ALL (i : Nat) :
    ICS_AUDIO_DEVICE_IN_ALL.testBit i
      = ((decide (16 ≤ i) && decide (i < 24)) || decide (i = 31)) := by
  unfold ICS_AUDIO_DEVICE_IN_ALL
  rw [Nat.testBit_or, testBit_ICS_AUDIO_DEVICE_IN_DEFAULT, testBit_old_input_flags]

theorem testBit_ICS_AUDIO_DEVICE_IN_BUILTIN_MIC (i : Nat) :
    ICS_AUDIO_DEVICE_IN_BUILTIN_MIC.testBit i = decide (i = 18) := by
  show (2 ^ 18).testBit i = _
  rw [Nat.testBit_two_pow]
  exact decide_eq_decide.mpr eq_comm

theorem testBit_ICS_AUDIO_DEVICE_IN_VOICE_CALL (i : Nat) :
    ICS_AUDIO_DEVICE_IN_VOICE_CALL.testBit i = decide (i = 22) := by
  show (2 ^ 22).testBit i = _
  rw [Nat.testBit_two_pow]
  exact decide_eq_decide.mpr eq_comm

theorem testBit_AUDIO_DEVICE_BIT_IN (i : Nat) :
    AUDIO_DEVICE_BIT_IN.testBit i = decide (i = 31) := by
  show (2 ^ 31).testBit i = _
  rw [Nat.testBit_two_pow]
  exact decide_eq_decide.mpr eq_comm

theorem testBit_AUDIO_DEVICE_OUT_DEFAULT (i : Nat) :
    AUDIO_DEVICE_OUT_DEFAULT.testBit i = decide (i = 30) := by
  show (2 ^ 30).testBit i = _
  rw [Nat.testBit_two_pow]
  exact decide_eq_decide.mpr eq_comm

theorem testBit_AUDIO_DEVICE_IN_DEFAULT (i : Nat) :
    AUDIO_DEVICE_IN_DEFAULT.testBit i = (decide (i = 31) || decide (i = 30)) := by
  unfold AUDIO_DEVICE_IN_DEFAULT
  rw [Nat.testBit_or, testBit_AUDIO_DEVICE_BIT_IN]
  congr 1
  exact testBit_AUDIO_DEVICE_OUT_DEFAULT i

/-! ## The tests of the source as facts about single bits -/

theorem old_out_default_set_iff (m : Nat) :
    m &&& ICS_AUDIO_DEVICE_OUT_DEFAULT ≠ 0 ↔ m.testBit 15 = true :=
  and_two_pow_ne_zero_iff (k := 15)

theorem new_out_default_set_iff (d : Nat) :
    d &&& AUDIO_DEVICE_OUT_DEFAULT ≠ 0 ↔ d.testBit 30 = true :=
  and_two_pow_ne_zero_iff (k := 30)

theorem old_in_default_set_iff (m : Nat) :
    m &&& ICS_AUDIO_DEVICE_IN_DEFAULT = ICS_AUDIO_DEVICE_IN_DEFAULT ↔ m.testBit 31 = true := by
  rw [and_eq_right_iff_bits]
  constructor
  · intro h
    exact h 31 (by rw [testBit_ICS_AUDIO_DEVICE_IN_DEFAULT]; rfl)
  · intro h i hi
    rw [testBit_ICS_AUDIO_DEVICE_IN_DEFAULT] at hi
    have : i = 31 := of_decide_eq_true hi
    subst this
    exact h

theorem bit_in_set_iff (d : Nat) :
    d &&& AUDIO_DEVICE_BIT_IN = AUDIO_DEVICE_BIT_IN ↔ d.testBit 31 = true :=
  old_in_default_set_iff d

theorem new_in_default_set_iff (d : Nat) :
    d &&& AUDIO_DEVICE_IN_DEFAULT = AUDIO_DEVICE_IN_DEFAULT
      ↔ d.testBit 31 = true ∧ d.testBit 30 = true := by
  rw [and_eq_right_iff_bits]
  constructor
  · intro h
    exact ⟨h 31 (by rw [testBit_AUDIO_DEVICE_IN_DEFAULT]; rfl),
      h 30 (by rw [testBit_AUDIO_DEVICE_IN_DEFAULT]; rfl)⟩
  · intro h i hi
    rw [testBit_AUDIO_DEVICE_IN_DEFAULT] at hi
    rcases Bool.or_eq_true_iff.mp hi with h1 | h1
    · have : i = 31 := of_decide_eq_true h1
      subst this
      exact h.1
    · have : i = 30 := of_decide_eq_true h1
      subst this
      exact h.2

theorem builtin_mic_set_iff (x : Nat) :
    x &&& ICS_AUDIO_DEVICE_IN_BUILTIN_MIC = ICS_AUDIO_DEVICE_IN_BUILTIN_MIC
      ↔ x.testBit 18 = true := by
  rw [and_eq_right_iff_bits]
  constructor
  · intro h
    exact h 18 (by rw [testBit_ICS_AUDIO_DEVICE_IN_BUILTIN_MIC]; rfl)
  · intro h i hi
    rw [testBit_ICS_AUDIO_DEVICE_IN_BUILTIN_MIC] at hi
    have : i = 18 := of_decide_eq_true hi
    subst this
    exact h

theorem audio_is_output_devices_iff (d : Nat) :
    audio_is_output_devices d = true ↔ d.testBit 31 = false := by
  unfold audio_is_output_devices
  rw [beq_iff_eq, and_eq_zero_iff_bits]
  constructor
  · intro h
    cases h31 : d.testBit 31
    · rfl
    · have := h 31 h31
      rw [testBit_AUDIO_DEVICE_BIT_IN] at this
      exact absurd this (by decide)
  · intro h i hi
    rw [testBit_AUDIO_DEVICE_BIT_IN]
    apply decide_eq_false
    intro hi31
    subst hi31
    rw [h] at hi
    exact absurd hi (by decide)

/-- A word confined to the old output range has only bits 0–13 and 15. -/
theorem out_range_bits {m : Nat} (hm : m < 2 ^ 32)
    (h : m &&& not32 ICS_AUDIO_DEVICE_OUT_ALL = 0) (i : Nat) (hi : m.testBit i = true) :
    i < 14 ∨ i = 15 := by
  have h1 := and_eq_zero_iff_bits.mp h i hi
  have h2 := testBit_lt_of_lt hm hi
  rw [testBit_not32, testBit_ICS_AUDIO_DEVICE_OUT_ALL] at h1
  simp at h1
  omega

/-- A word confined to the old input range has only bits 16–23 and 31. -/
theorem in_range_bits {m : Nat} (hm : m < 2 ^ 32)
    (h : m &&& not32 ICS_AUDIO_DEVICE_IN_ALL = 0) (i : Nat) (hi : m.testBit i = true) :
    (16 ≤ i ∧ i < 24) ∨ i = 31 := by
  have h1 := and_eq_zero_iff_bits.mp h i hi
  have h2 := testBit_lt_of_lt hm hi
  rw [testBit_not32, testBit_ICS_AUDIO_DEVICE_IN_ALL] at h1
  simp at h1
  omega

/-! ## The four conversion branches, bit by bit -/

theorem ics_to_jb_out_eq {m : Nat} (hout : m &&& not32 ICS_AUDIO_DEVICE_OUT_ALL = 0) :
    convert_ics_to_jb m
      = if m &&& ICS_AUDIO_DEVICE_OUT_DEFAULT ≠ 0 then
          (m &&& not32 ICS_AUDIO_DEVICE_OUT_DEFAULT) ||| AUDIO_DEVICE_OUT_DEFAULT
        else m &&& not32 ICS_AUDIO_DEVICE_OUT_DEFAULT := by
  unfold convert_ics_to_jb
  rw [if_pos hout]

theorem ics_to_jb_in_eq {m : Nat} (hnout : m &&& not32 ICS_AUDIO_DEVICE_OUT_ALL ≠ 0)
    (hin : m &&& not32 ICS_AUDIO_DEVICE_IN_ALL = 0) :
    convert_ics_to_jb m
      = if m &&& ICS_AUDIO_DEVICE_IN_DEFAULT = ICS_AUDIO_DEVICE_IN_DEFAULT then
          ((m &&& not32 ICS_AUDIO_DEVICE_IN_DEFAULT) >>> 16) ||| AUDIO_DEVICE_BIT_IN
            ||| AUDIO_DEVICE_IN_DEFAULT
        else ((m &&& not32 ICS_AUDIO_DEVICE_IN_DEFAULT) >>> 16) ||| AUDIO_DEVICE_BIT_IN := by
  unfold convert_ics_to_jb
  rw [if_neg hnout, if_pos hin]

theorem ics_to_jb_out_bits {m : Nat} (hm : m < 2 ^ 32)
    (hout : m &&& not32 ICS_AUDIO_DEVICE_OUT_ALL = 0) (i : Nat) :
    (convert_ics_to_jb m).testBit i
      = ((m.testBit i && !decide (i = 15)) || (decide (i = 30) && m.testBit 15)) := by
  have hr := out_range_bits hm hout i
  rw [ics_to_jb_out_eq hout]
  simp only [old_out_default_set_iff]
  rw [Bool.eq_iff_iff]
  cases h15 : m.testBit 15 <;> cases hi : m.testBit i <;>
    simp [hi, testBit_not32, testBit_ICS_AUDIO_DEVICE_OUT_DEFAULT,
      testBit_AUDIO_DEVICE_OUT_DEFAULT] at hr ⊢ <;> omega

theorem ics_to_jb_in_bits {m : Nat} (hm : m < 2 ^ 32)
    (hnout : m &&& not32 ICS_AUDIO_DEVICE_OUT_ALL ≠ 0)
    (hin : m &&& not32 ICS_AUDIO_DEVICE_IN_ALL = 0) (i : Nat) :
    (convert_ics_to_jb m).testBit i
      = ((decide (i < 8) && m.testBit (16 + i)) || decide (i = 31)
          || (decide (i = 30) && m.testBit 31)) := by
  have hr := in_range_bits hm hin (16 + i)
  rw [ics_to_jb_in_eq hnout hin]
  simp only [old_in_default_set_iff]
  rw [Bool.eq_iff_iff]
  cases h31 : m.testBit 31 <;> cases hi : m.testBit (16 + i) <;>
    simp [hi, testBit_not32, testBit_ICS_AUDIO_DEVICE_IN_DEFAULT,
      testBit_AUDIO_DEVICE_BIT_IN, testBit_AUDIO_DEVICE_IN_DEFAULT] at hr ⊢ <;> omega

theorem jb_to_ics_out_eq {p : Nat → Bool} {d : Nat} (hp : p d = true) :
    convert_jb_to_ics p d
      = if d &&& AUDIO_DEVICE_OUT_DEFAULT ≠ 0 then
          (d &&& DEVICE_OUT_MASK) ||| ICS_AUDIO_DEVICE_OUT_DEFAULT
        else d &&& DEVICE_OUT_MASK := by
  unfold convert_jb_to_ics
  rw [if_pos hp]

theorem jb_to_ics_in_eq {p : Nat → Bool} {d : Nat} (hp : p d = false)
    (hin : d &&& AUDIO_DEVICE_BIT_IN = AUDIO_DEVICE_BIT_IN) :
    convert_jb_to_ics p d
      = if d &&& AUDIO_DEVICE_IN_DEFAULT = AUDIO_DEVICE_IN_DEFAULT then
          (((d &&& DEVICE_IN_MASK) <<< 16) % 2 ^ 32) ||| ICS_AUDIO_DEVICE_IN_DEFAULT
        else ((d &&& DEVICE_IN_MASK) <<< 16) % 2 ^ 32 := by
  unfold convert_jb_to_ics
  rw [if_neg (by simp [hp]), if_pos hin]

theorem testBit_in_mask_shift (d i : Nat) :
    (((d &&& DEVICE_IN_MASK) <<< 16) % 2 ^ 32).testBit i
      = (decide (16 ≤ i) && decide (i < 24) && d.testBit (i - 16)) := by
  rw [Nat.testBit_mod_two_pow, Nat.testBit_shiftLeft, Nat.testBit_and, testBit_DEVICE_IN_MASK,
    Bool.eq_iff_iff]
  cases hi : d.testBit (i - 16)
  · simp
  · simp
    omega

theorem jb_to_ics_out_bits {p : Nat → Bool} {d : Nat} (hp : p d = true) (i : Nat) :
    (convert_jb_to_ics p d).testBit i
      = ((d.testBit i && decide (i < 14)) || (decide (i = 15) && d.testBit 30)) := by
  rw [jb_to_ics_out_eq hp]
  simp only [new_out_default_set_iff]
  cases h30 : d.testBit 30 <;>
    simp [testBit_DEVICE_OUT_MASK, testBit_ICS_AUDIO_DEVICE_OUT_DEFAULT]

theorem jb_to_ics_in_bits {p : Nat → Bool} {d : Nat} (hp : p d = false)
    (h31 : d.testBit 31 = true) (i : Nat) :
    (convert_jb_to_ics p d).testBit i
      = ((decide (16 ≤ i) && decide (i < 24) && d.testBit (i - 16))
          || (decide (i = 31) && d.testBit 30)) := by
  rw [jb_to_ics_in_eq hp ((bit_in_set_iff d).mpr h31)]
  simp only [new_in_default_set_iff, h31, true_and]
  cases h30 : d.testBit 30 <;>
    simp only [reduceIte, Bool.false_eq_true, Nat.testBit_or, testBit_in_mask_shift,
      testBit_ICS_AUDIO_DEVICE_IN_DEFAULT, Bool.and_false, Bool.and_true, Bool.or_false]

/-! ## The entry point, direction by direction -/

theorem convert_audio_devices_ics_to_jb (b : Build) (p : Nat → Bool) (m : Nat) :
    convert_audio_devices b p m ICS_TO_JB
      = if b.CONVERT_AUDIO_DEVICES_T = true then convert_ics_to_jb m else m := by
  unfold convert_audio_devices
  rw [if_pos rfl]

theorem convert_audio_devices_jb_to_ics (b : Build) (p : Nat → Bool) (d : Nat) :
    convert_audio_devices b p d JB_TO_ICS
      = fixup_audio_devices b
          (if b.CONVERT_AUDIO_DEVICES_T = true then convert_jb_to_ics p d else d) := by
  unfold convert_audio_devices
  rw [if_neg (by decide), if_pos rfl]

theorem fixup_audio_devices_of_clear (b : Build) {x : Nat} (h : x.testBit 18 = false) :
    fixup_audio_devices b x = x := by
  unfold fixup_audio_devices
  have hmic : ¬ (x &&& ICS_AUDIO_DEVICE_IN_BUILTIN_MIC = ICS_AUDIO_DEVICE_IN_BUILTIN_MIC) := by
    rw [builtin_mic_set_iff, h]
    decide
  rw [if_neg hmic]
  exact ite_self x

theorem fixup_audio_devices_disabled (b : Build) (h : b.NO_HTC_POLICY_MANAGER = false)
    (x : Nat) : fixup_audio_devices b x = x := by
  unfold fixup_audio_devices
  rw [if_neg (by simp [h])]

/-! ## Round trips of the two branches -/

theorem out_branch_round_trip {m : Nat} (hm : m < 2 ^ 32)
    (hout : m &&& not32 ICS_AUDIO_DEVICE_OUT_ALL = 0) :
    convert_jb_to_ics audio_is_output_devices (convert_ics_to_jb m) = m := by
  have hr := out_range_bits hm hout
  have h31 : m.testBit 31 = false := by
    cases h : m.testBit 31
    · rfl
    · have := hr 31 h
      omega
  have h30 : m.testBit 30 = false := by
    cases h : m.testBit 30
    · rfl
    · have := hr 30 h
      omega
  have hp : audio_is_output_devices (convert_ics_to_jb m) = true := by
    rw [audio_is_output_devices_iff, ics_to_jb_out_bits hm hout, h31]
    rfl
  apply Nat.eq_of_testBit_eq
  intro i
  rw [jb_to_ics_out_bits hp, ics_to_jb_out_bits hm hout, ics_to_jb_out_bits hm hout, h30,
    Bool.eq_iff_iff]
  have hi := hr i
  by_cases h15 : i = 15
  · subst h15
    simp
  · cases hb : m.testBit i <;> simp [hb, h15] at hi ⊢ <;> omega

theorem in_branch_round_trip {m : Nat} (hm : m < 2 ^ 32)
    (hnout : m &&& not32 ICS_AUDIO_DEVICE_OUT_ALL ≠ 0)
    (hin : m &&& not32 ICS_AUDIO_DEVICE_IN_ALL = 0) :
    convert_jb_to_ics audio_is_output_devices (convert_ics_to_jb m) = m := by
  have hr := in_range_bits hm hin
  have h31 : (convert_ics_to_jb m).testBit 31 = true := by
    rw [ics_to_jb_in_bits hm hnout hin]
    rfl
  have hp : audio_is_output_devices (convert_ics_to_jb m) = false := by
    cases h : audio_is_output_devices (convert_ics_to_jb m)
    · rfl
    · rw [audio_is_output_devices_iff, h31] at h
      exact absurd h (by decide)
  apply Nat.eq_of_testBit_eq
  intro i
  rw [jb_to_ics_in_bits hp h31, ics_to_jb_in_bits hm hnout hin, ics_to_jb_in_bits hm hnout hin,
    Bool.eq_iff_iff]
  have hi := hr i
  by_cases h31i : i = 31
  · subst h31i
    simp
  · by_cases h16 : 16 ≤ i
    · have e : 16 + (i - 16) = i := by omega
      rw [e]
      cases hb : m.testBit i <;> simp [hb, h31i] at hi ⊢ <;> omega
    · cases hb : m.testBit i <;> simp [hb, h31i] at hi ⊢ <;> omega

theorem and_ne_zero_iff_bits {a b : Nat} :
    a &&& b ≠ 0 ↔ ∃ i, a.testBit i = true ∧ b.testBit i = true := by
  rw [Ne, and_eq_zero_iff_bits]
  constructor
  · intro h
    by_contra hne
    apply h
    intro i hi
    cases hb : b.testBit i
    · rfl
    · exact absurd ⟨i, hi, hb⟩ hne
  · rintro ⟨i, hi, hb⟩ h
    rw [h i hi] at hb
    exact absurd hb (by decide)

/-- A word with a bit of the old output range and a bit of the old input range has a bit
outside each of the two ranges. -/
theorem mixed_mask_outside_both {m : Nat}
    (h : m &&& ICS_AUDIO_DEVICE_OUT_ALL ≠ 0 ∧ m &&& ICS_AUDIO_DEVICE_IN_ALL ≠ 0) :
    m &&& not32 ICS_AUDIO_DEVICE_OUT_ALL ≠ 0 ∧ m &&& not32 ICS_AUDIO_DEVICE_IN_ALL ≠ 0 := by
  obtain ⟨ho, hi⟩ := h
  rw [and_ne_zero_iff_bits] at ho hi ⊢
  rw [and_ne_zero_iff_bits]
  obtain ⟨i, hmi, hoi⟩ := ho
  obtain ⟨j, hmj, hij⟩ := hi
  rw [testBit_ICS_AUDIO_DEVICE_OUT_ALL] at hoi
  rw [testBit_ICS_AUDIO_DEVICE_IN_ALL] at hij
  simp at hoi hij
  refine ⟨⟨j, hmj, ?_⟩, ⟨i, hmi, ?_⟩⟩
  · rw [testBit_not32, testBit_ICS_AUDIO_DEVICE_OUT_ALL]
    simp
    omega
  · rw [testBit_not32, testBit_ICS_AUDIO_DEVICE_IN_ALL]
    simp
    omega

theorem ics_to_jb_ambiguous {m : Nat}
    (h : m &&& not32 ICS_AUDIO_DEVICE_OUT_ALL ≠ 0 ∧ m &&& not32 ICS_AUDIO_DEVICE_IN_ALL ≠ 0) :
    convert_ics_to_jb m = m := by
  unfold convert_ics_to_jb
  rw [if_neg h.1, if_neg h.2]

theorem fixup_audio_devices_enabled (b : Build) (h : b.NO_HTC_POLICY_MANAGER = true)
    (x : Nat) :
    fixup_audio_devices b x
      = if x &&& ICS_AUDIO_DEVICE_IN_BUILTIN_MIC = ICS_AUDIO_DEVICE_IN_BUILTIN_MIC then
          (x &&& not32 ICS_AUDIO_DEVICE_IN_BUILTIN_MIC) ||| ICS_AUDIO_DEVICE_IN_VOICE_CALL
        else x := by
  unfold fixup_audio_devices
  rw [if_pos h]

theorem fixup_audio_devices_bit18 (b : Build) (h : b.NO_HTC_POLICY_MANAGER = true) (x : Nat) :
    (fixup_audio_devices b x).testBit 18 = false := by
  rw [fixup_audio_devices_enabled b h]
  by_cases hx : x &&& ICS_AUDIO_DEVICE_IN_BUILTIN_MIC = ICS_AUDIO_DEVICE_IN_BUILTIN_MIC
  · rw [if_pos hx, Nat.testBit_or, Nat.testBit_and, testBit_not32,
      testBit_ICS_AUDIO_DEVICE_IN_BUILTIN_MIC, testBit_ICS_AUDIO_DEVICE_IN_VOICE_CALL]
    simp
  · rw [if_neg hx]
    rw [builtin_mic_set_iff] at hx
    simpa using hx

theorem fixup_audio_devices_idem (b : Build) (x : Nat) :
    fixup_audio_devices b (fixup_audio_devices b x) = fixup_audio_devices b x := by
  cases h : b.NO_HTC_POLICY_MANAGER
  · rw [fixup_audio_devices_disabled b h, fixup_audio_devices_disabled b h]
  · exact fixup_audio_devices_of_clear b (fixup_audio_devices_bit18 b h x)

/-! ## Round trips (C1, C2) -/

/-- C1: with layout conversion built in, every 32-bit old-layout mask confined to the old
output range comes back unchanged from `ICS_TO_JB` followed by `JB_TO_ICS` (the fixup step
included, whether the quirk is enabled or not); in particular the old default-output bit is
set in the result exactly when it is set in the mask. -/
theorem output_round_trip (b : Build) (hb : b.CONVERT_AUDIO_DEVICES_T = true) (m : Nat)
    (hm : m < 2 ^ 32) (hout : m &&& not32 ICS_AUDIO_DEVICE_OUT_ALL = 0) :
    convert_audio_devices b audio_is_output_devices
        (convert_audio_devices b audio_is_output_devices m ICS_TO_JB) JB_TO_ICS = m
    ∧ (convert_audio_devices b audio_is_output_devices
          (convert_audio_devices b audio_is_output_devices m ICS_TO_JB) JB_TO_ICS
          &&& ICS_AUDIO_DEVICE_OUT_DEFAULT ≠ 0
        ↔ m &&& ICS_AUDIO_DEVICE_OUT_DEFAULT ≠ 0) := by
  have h18 : m.testBit 18 = false := by
    cases h : m.testBit 18
    · rfl
    · have := out_range_bits hm hout 18 h
      omega
  have e : convert_audio_devices b audio_is_output_devices
        (convert_audio_devices b audio_is_output_devices m ICS_TO_JB) JB_TO_ICS = m := by
    rw [convert_audio_devices_ics_to_jb, convert_audio_devices_jb_to_ics, if_pos hb, if_pos hb,
      out_branch_round_trip hm hout]
    exact fixup_audio_devices_of_clear b h18
  exact ⟨e, by rw [e]⟩

/-- Witness of C1 at the mask `0x8002` (speaker and old default output), quirk enabled. -/
theorem output_round_trip_witness :
    ((0x8002 : Nat) < 2 ^ 32 ∧ 0x8002 &&& not32 ICS_AUDIO_DEVICE_OUT_ALL = 0)
    ∧ convert_audio_devices ⟨true, true⟩ audio_is_output_devices
        (convert_audio_devices ⟨true, true⟩ audio_is_output_devices 0x8002 ICS_TO_JB)
        JB_TO_ICS = 0x8002 :=
  ⟨⟨by decide, by decide⟩,
    (output_round_trip ⟨true, true⟩ rfl 0x8002 (by decide) (by decide)).1⟩

/-- C2, as the claim states it, fails: with layout conversion built in and the quirk enabled,
the old built-in-microphone flag `0x40000` lies in the old input range and comes back from
the round trip as the voice-call flag `0x400000`. -/
theorem input_round_trip_counterexample :
    (0x40000 : Nat) < 2 ^ 32
    ∧ 0x40000 &&& not32 ICS_AUDIO_DEVICE_IN_ALL = 0
    ∧ convert_audio_devices ⟨true, true⟩ audio_is_output_devices 0x40000 ICS_TO_JB
        = 0x80000004
    ∧ convert_audio_devices ⟨true, true⟩ audio_is_output_devices 0x80000004 JB_TO_ICS
        = 0x400000
    ∧ convert_audio_devices ⟨true, true⟩ audio_is_output_devices
        (convert_audio_devices ⟨true, true⟩ audio_is_output_devices 0x40000 ICS_TO_JB)
        JB_TO_ICS ≠ 0x40000 := by
  decide

/-- C2, amended: with layout conversion built in, every 32-bit old-layout mask confined to
the old input range comes back from `ICS_TO_JB` followed by `JB_TO_ICS` as
`fixup_audio_devices` of itself; hence unchanged when the quirk is disabled or when the mask
does not have the built-in-microphone flag. -/
theorem input_round_trip (b : Build) (hb : b.CONVERT_AUDIO_DEVICES_T = true) (m : Nat)
    (hm : m < 2 ^ 32) (hin : m &&& not32 ICS_AUDIO_DEVICE_IN_ALL = 0) :
    convert_audio_devices b audio_is_output_devices
        (convert_audio_devices b audio_is_output_devices m ICS_TO_JB) JB_TO_ICS
      = fixup_audio_devices b m
    ∧ (b.NO_HTC_POLICY_MANAGER = false
          ∨ m &&& ICS_AUDIO_DEVICE_IN_BUILTIN_MIC ≠ ICS_AUDIO_DEVICE_IN_BUILTIN_MIC →
        convert_audio_devices b audio_is_output_devices
          (convert_audio_devices b audio_is_output_devices m ICS_TO_JB) JB_TO_ICS = m) := by
  have e : convert_audio_devices b audio_is_output_devices
        (convert_audio_devices b audio_is_output_devices m ICS_TO_JB) JB_TO_ICS
      = fixup_audio_devices b m := by
    rw [convert_audio_devices_ics_to_jb, convert_audio_devices_jb_to_ics, if_pos hb, if_pos hb]
    by_cases hout : m &&& not32 ICS_AUDIO_DEVICE_OUT_ALL = 0
    · rw [out_branch_round_trip hm hout]
    · rw [in_branch_round_trip hm hout hin]
  refine ⟨e, ?_⟩
  rintro (hq | hmic)
  · rw [e, fixup_audio_devices_disabled b hq]
  · rw [e]
    apply fixup_audio_devices_of_clear
    rw [Ne, builtin_mic_set_iff] at hmic
    simpa using hmic

/-- Witness of the amended C2 at the mask `0x80410000` (communication, voice call and old
default input), quirk enabled. -/
theorem input_round_trip_witness :
    ((0x80410000 : Nat) < 2 ^ 32 ∧ 0x80410000 &&& not32 ICS_AUDIO_DEVICE_IN_ALL = 0)
    ∧ convert_audio_devices ⟨true, true⟩ audio_is_output_devices
        (convert_audio_devices ⟨true, true⟩ audio_is_output_devices 0x80410000 ICS_TO_JB)
        JB_TO_ICS = 0x80410000 :=
  ⟨⟨by decide, by decide⟩,
    (input_round_trip ⟨true, true⟩ rfl 0x80410000 (by decide) (by decide)).2
      (Or.inr (by decide))⟩

/-! ## Pass-through cases (C3, C4) -/

/-- C3: for every mask and every mode value that is neither `ICS_TO_JB` nor `JB_TO_ICS`,
`convert_audio_devices` returns the mask unchanged, in every build configuration and for
every output predicate. -/
theorem invalid_mode_passes_through (b : Build) (p : Nat → Bool) (m : Nat) (mode : Int)
    (h1 : mode ≠ ICS_TO_JB) (h2 : mode ≠ JB_TO_ICS) :
    convert_audio_devices b p m mode = m := by
  unfold convert_audio_devices
  rw [if_neg h1, if_neg h2]

/-- Witness of C3 at mode `2` and the built-in-microphone flag, conversion and quirk
enabled. -/
theorem invalid_mode_passes_through_witness :
    ((2 : Int) ≠ ICS_TO_JB ∧ (2 : Int) ≠ JB_TO_ICS)
    ∧ convert_audio_devices ⟨true, true⟩ audio_is_output_devices 0x40000 2 = 0x40000 :=
  ⟨⟨by decide, by decide⟩,
    invalid_mode_passes_through ⟨true, true⟩ audio_is_output_devices 0x40000 2
      (by decide) (by decide)⟩

/-- C4: a mask that has a bit of the old output range and a bit of the old input range, and
more generally a mask that has a bit outside the old output range and a bit outside the old
input range, is returned unchanged by `convert_audio_devices` in direction `ICS_TO_JB`, in
every build configuration. -/
theorem ambiguous_mask_passes_through (b : Build) (p : Nat → Bool) (m : Nat)
    (h : (m &&& ICS_AUDIO_DEVICE_OUT_ALL ≠ 0 ∧ m &&& ICS_AUDIO_DEVICE_IN_ALL ≠ 0)
      ∨ (m &&& not32 ICS_AUDIO_DEVICE_OUT_ALL ≠ 0
          ∧ m &&& not32 ICS_AUDIO_DEVICE_IN_ALL ≠ 0)) :
    convert_audio_devices b p m ICS_TO_JB = m := by
  have h2 : m &&& not32 ICS_AUDIO_DEVICE_OUT_ALL ≠ 0
      ∧ m &&& not32 ICS_AUDIO_DEVICE_IN_ALL ≠ 0 :=
    h.elim mixed_mask_outside_both id
  rw [convert_audio_devices_ics_to_jb, ics_to_jb_ambiguous h2]
  exact ite_self m

/-- Witness of C4 at the mask `0x10001` (old earpiece output and old communication input),
conversion and quirk enabled. -/
theorem ambiguous_mask_passes_through_witness :
    (0x10001 &&& ICS_AUDIO_DEVICE_OUT_ALL ≠ 0 ∧ 0x10001 &&& ICS_AUDIO_DEVICE_IN_ALL ≠ 0)
    ∧ convert_audio_devices ⟨true, true⟩ audio_is_output_devices 0x10001 ICS_TO_JB
        = 0x10001 :=
  ⟨⟨by decide, by decide⟩,
    ambiguous_mask_passes_through ⟨true, true⟩ audio_is_output_devices 0x10001
      (Or.inl ⟨by decide, by decide⟩)⟩

/-! ## The conversion branches (C5–C8) -/

/-- C5, as the claim states it for every build, fails: in the build without
`CONVERT_AUDIO_DEVICES_T` the direction `ICS_TO_JB` returns its argument, so the old
speaker-and-default mask `0x8002` keeps its old default-output bit and gets no new one. -/
theorem ics_to_jb_output_mask_counterexample :
    (0x8002 : Nat) < 2 ^ 32
    ∧ 0x8002 &&& not32 ICS_AUDIO_DEVICE_OUT_ALL = 0
    ∧ 0x8002 &&& 0x8000 ≠ 0
    ∧ convert_audio_devices ⟨false, false⟩ audio_is_output_devices 0x8002 ICS_TO_JB = 0x8002
    ∧ convert_audio_devices ⟨false, false⟩ audio_is_output_devices 0x8002 ICS_TO_JB
        ≠ (0x8002 &&& not32 0x8000) ||| AUDIO_DEVICE_OUT_DEFAULT := by
  decide

/-- C5, amended: with layout conversion built in, for every 32-bit mask confined to the old
output range, `convert_audio_devices` in direction `ICS_TO_JB` returns the mask with the old
default-output bit `0x8000` cleared, OR-ed with `AUDIO_DEVICE_OUT_DEFAULT` exactly when the
mask had the old default-output bit; every bit other than these two is copied unchanged. -/
theorem ics_to_jb_output_mask (b : Build) (hb : b.CONVERT_AUDIO_DEVICES_T = true)
    (p : Nat → Bool) (m : Nat) (hm : m < 2 ^ 32)
    (hout : m &&& not32 ICS_AUDIO_DEVICE_OUT_ALL = 0) :
    convert_audio_devices b p m ICS_TO_JB
      = (m &&& not32 0x8000)
          ||| (if m &&& 0x8000 ≠ 0 then AUDIO_DEVICE_OUT_DEFAULT else 0)
    ∧ (∀ i, i ≠ 15 → i ≠ 30 →
        (convert_audio_devices b p m ICS_TO_JB).testBit i = m.testBit i)
    ∧ (convert_audio_devices b p m ICS_TO_JB).testBit 15 = false
    ∧ (convert_audio_devices b p m ICS_TO_JB).testBit 30 = m.testBit 15 := by
  have e : convert_audio_devices b p m ICS_TO_JB = convert_ics_to_jb m := by
    rw [convert_audio_devices_ics_to_jb, if_pos hb]
  rw [e]
  refine ⟨?_, ?_, ?_, ?_⟩
  · rw [ics_to_jb_out_eq hout]
    show (if m &&& ICS_AUDIO_DEVICE_OUT_DEFAULT ≠ 0 then _ else _)
      = (m &&& not32 ICS_AUDIO_DEVICE_OUT_DEFAULT)
          ||| (if m &&& ICS_AUDIO_DEVICE_OUT_DEFAULT ≠ 0 then AUDIO_DEVICE_OUT_DEFAULT else 0)
    by_cases h : m &&& ICS_AUDIO_DEVICE_OUT_DEFAULT ≠ 0
    · rw [if_pos h, if_pos h]
    · rw [if_neg h, if_neg h, Nat.or_zero]
  · intro i h15 h30
    rw [ics_to_jb_out_bits hm hout]
    simp [h15, h30]
  · rw [ics_to_jb_out_bits hm hout]
    simp
  · rw [ics_to_jb_out_bits hm hout]
    have h30 : m.testBit 30 = false := by
      cases h : m.testBit 30
      · rfl
      · have := out_range_bits hm hout 30 h
        omega
    simp [h30]

/-- Witness of the amended C5: the old speaker-and-default mask `0x8000 | 0x0002` is converted to
`AUDIO_DEVICE_OUT_DEFAULT | 0x0002`. -/
theorem ics_to_jb_output_mask_witness :
    ((0x8002 : Nat) < 2 ^ 32 ∧ 0x8002 &&& not32 ICS_AUDIO_DEVICE_OUT_ALL = 0)
    ∧ convert_audio_devices ⟨true, true⟩ audio_is_output_devices (0x8000 ||| 0x0002) ICS_TO_JB
        = AUDIO_DEVICE_OUT_DEFAULT ||| 0x0002 :=
  ⟨⟨by decide, by decide⟩,
    (ics_to_jb_output_mask ⟨true, true⟩ rfl audio_is_output_devices 0x8002 (by decide)
      (by decide)).1.trans (by decide)⟩

/-- C6, as the claim states it for every build, fails: in the build without
`CONVERT_AUDIO_DEVICES_T` the direction `ICS_TO_JB` returns its argument, so the old
communication input flag `0x10000` is neither shifted nor given the input marker bit. -/
theorem ics_to_jb_input_mask_counterexample :
    (0x10000 : Nat) < 2 ^ 32
    ∧ 0x10000 &&& not32 ICS_AUDIO_DEVICE_OUT_ALL ≠ 0
    ∧ 0x10000 &&& not32 ICS_AUDIO_DEVICE_IN_ALL = 0
    ∧ 0x10000 &&& ICS_AUDIO_DEVICE_IN_DEFAULT ≠ ICS_AUDIO_DEVICE_IN_DEFAULT
    ∧ convert_audio_devices ⟨false, false⟩ audio_is_output_devices 0x10000 ICS_TO_JB = 0x10000
    ∧ convert_audio_devices ⟨false, false⟩ audio_is_output_devices 0x10000 ICS_TO_JB
        ≠ ((0x10000 &&& not32 ICS_AUDIO_DEVICE_IN_DEFAULT) >>> 16) ||| AUDIO_DEVICE_BIT_IN := by
  decide

/-- C6, amended: with layout conversion built in, for every 32-bit mask that has a bit outside
the old output range and none outside the old input range, `convert_audio_devices` in direction
`ICS_TO_JB` returns `((m & ~ICS_AUDIO_DEVICE_IN_DEFAULT) >> 16) | AUDIO_DEVICE_BIT_IN`,
OR-ed with `AUDIO_DEVICE_IN_DEFAULT` exactly when the mask has the old default-input
pattern; the old input flag at bit `16 + k` appears at bit `k` for `k < 8`, and the input
marker bit is set. -/
theorem ics_to_jb_input_mask (b : Build) (hb : b.CONVERT_AUDIO_DEVICES_T = true)
    (p : Nat → Bool) (m : Nat) (hm : m < 2 ^ 32)
    (hnout : m &&& not32 ICS_AUDIO_DEVICE_OUT_ALL ≠ 0)
    (hin : m &&& not32 ICS_AUDIO_DEVICE_IN_ALL = 0) :
    convert_audio_devices b p m ICS_TO_JB
      = (((m &&& not32 ICS_AUDIO_DEVICE_IN_DEFAULT) >>> 16) ||| AUDIO_DEVICE_BIT_IN)
          ||| (if m &&& ICS_AUDIO_DEVICE_IN_DEFAULT = ICS_AUDIO_DEVICE_IN_DEFAULT then
                AUDIO_DEVICE_IN_DEFAULT else 0)
    ∧ (∀ k, k < 8 → (convert_audio_devices b p m ICS_TO_JB).testBit k = m.testBit (16 + k))
    ∧ convert_audio_devices b p m ICS_TO_JB &&& AUDIO_DEVICE_BIT_IN = AUDIO_DEVICE_BIT_IN := by
  have e : convert_audio_devices b p m ICS_TO_JB = convert_ics_to_jb m := by
    rw [convert_audio_devices_ics_to_jb, if_pos hb]
  rw [e]
  refine ⟨?_, ?_, ?_⟩
  · rw [ics_to_jb_in_eq hnout hin]
    by_cases h : m &&& ICS_AUDIO_DEVICE_IN_DEFAULT = ICS_AUDIO_DEVICE_IN_DEFAULT
    · rw [if_pos h, if_pos h]
    · rw [if_neg h, if_neg h, Nat.or_zero]
  · intro k hk
    rw [ics_to_jb_in_bits hm hnout hin, Bool.eq_iff_iff]
    cases hb16 : m.testBit (16 + k) <;> simp <;> omega
  · rw [bit_in_set_iff, ics_to_jb_in_bits hm hnout hin]
    simp

/-- Witness of the amended C6 at the mask `0x80410000` (communication, voice call and old default
input): the result is `AUDIO_DEVICE_IN_DEFAULT | 0x41`. -/
theorem ics_to_jb_input_mask_witness :
    ((0x80410000 : Nat) < 2 ^ 32 ∧ 0x80410000 &&& not32 ICS_AUDIO_DEVICE_OUT_ALL ≠ 0
      ∧ 0x80410000 &&& not32 ICS_AUDIO_DEVICE_IN_ALL = 0)
    ∧ convert_audio_devices ⟨true, true⟩ audio_is_output_devices 0x80410000 ICS_TO_JB
        = AUDIO_DEVICE_IN_DEFAULT ||| 0x41 :=
  ⟨⟨by decide, by decide, by decide⟩,
    (ics_to_jb_input_mask ⟨true, true⟩ rfl audio_is_output_devices 0x80410000 (by decide)
      (by decide) (by decide)).1.trans (by decide)⟩

/-- C7: for every new-layout mask for which the output predicate holds, `convert_jb_to_ics`
returns `d & 0x3FFF`, OR-ed with the old default-output bit `0x8000` exactly when the mask
has `AUDIO_DEVICE_OUT_DEFAULT`; with layout conversion built in, `convert_audio_devices` in
direction `JB_TO_ICS` is this value passed through `fixup_audio_devices`. -/
theorem jb_to_ics_output_mask (b : Build) (hb : b.CONVERT_AUDIO_DEVICES_T = true)
    (p : Nat → Bool) (d : Nat) (hp : p d = true) :
    convert_jb_to_ics p d
      = (d &&& 0x3FFF) ||| (if d &&& AUDIO_DEVICE_OUT_DEFAULT ≠ 0 then 0x8000 else 0)
    ∧ convert_audio_devices b p d JB_TO_ICS
      = fixup_audio_devices b
          ((d &&& 0x3FFF) ||| (if d &&& AUDIO_DEVICE_OUT_DEFAULT ≠ 0 then 0x8000 else 0)) := by
  have e : convert_jb_to_ics p d
      = (d &&& 0x3FFF) ||| (if d &&& AUDIO_DEVICE_OUT_DEFAULT ≠ 0 then 0x8000 else 0) := by
    rw [jb_to_ics_out_eq hp]
    show (if d &&& AUDIO_DEVICE_OUT_DEFAULT ≠ 0 then
          (d &&& DEVICE_OUT_MASK) ||| ICS_AUDIO_DEVICE_OUT_DEFAULT
        else d &&& DEVICE_OUT_MASK)
      = (d &&& DEVICE_OUT_MASK)
          ||| (if d &&& AUDIO_DEVICE_OUT_DEFAULT ≠ 0 then ICS_AUDIO_DEVICE_OUT_DEFAULT else 0)
    by_cases h : d &&& AUDIO_DEVICE_OUT_DEFAULT ≠ 0
    · rw [if_pos h, if_pos h]
    · rw [if_neg h, if_neg h, Nat.or_zero]
  refine ⟨e, ?_⟩
  rw [convert_audio_devices_jb_to_ics, if_pos hb, e]

/-- Witness of C7 at the new-layout mask `0x40004002` (speaker, USB device and new default
output): `convert_jb_to_ics` gives `0x8002`. -/
theorem jb_to_ics_output_mask_witness :
    audio_is_output_devices 0x40004002 = true
    ∧ convert_jb_to_ics audio_is_output_devices 0x40004002 = 0x8002
    ∧ convert_audio_devices ⟨true, true⟩ audio_is_output_devices 0x40004002 JB_TO_ICS
        = 0x8002 :=
  ⟨by decide,
    (jb_to_ics_output_mask ⟨true, true⟩ rfl audio_is_output_devices 0x40004002
      (by decide)).1.trans (by decide),
    (jb_to_ics_output_mask ⟨true, true⟩ rfl audio_is_output_devices 0x40004002
      (by decide)).2.trans (by decide)⟩

/-- C8: for every new-layout mask that is not an output mask and has the input marker bit,
`convert_jb_to_ics` returns `(d & 0xFF) << 16`, OR-ed with the old default-input pattern
exactly when `(d & AUDIO_DEVICE_IN_DEFAULT) == AUDIO_DEVICE_IN_DEFAULT`; the result has only
bits 16–23 and the old default-input bit, so the new input flags at bit 8 and above are
dropped: two such masks that agree on their low eight bits and on the default test give the
same result. -/
theorem jb_to_ics_input_mask (p : Nat → Bool) (d : Nat) (hp : p d = false)
    (hin : d &&& AUDIO_DEVICE_BIT_IN = AUDIO_DEVICE_BIT_IN) :
    convert_jb_to_ics p d
      = ((d &&& 0xFF) <<< 16)
          ||| (if d &&& AUDIO_DEVICE_IN_DEFAULT = AUDIO_DEVICE_IN_DEFAULT then
                ICS_AUDIO_DEVICE_IN_DEFAULT else 0)
    ∧ convert_jb_to_ics p d &&& not32 (0x00FF0000 ||| ICS_AUDIO_DEVICE_IN_DEFAULT) = 0
    ∧ (∀ k, k < 8 → (convert_jb_to_ics p d).testBit (16 + k) = d.testBit k)
    ∧ (∀ d2, p d2 = false → d2 &&& AUDIO_DEVICE_BIT_IN = AUDIO_DEVICE_BIT_IN →
        d2 &&& 0xFF = d &&& 0xFF →
        (d2 &&& AUDIO_DEVICE_IN_DEFAULT = AUDIO_DEVICE_IN_DEFAULT
          ↔ d &&& AUDIO_DEVICE_IN_DEFAULT = AUDIO_DEVICE_IN_DEFAULT) →
        convert_jb_to_ics p d2 = convert_jb_to_ics p d) := by
  have hmod : ∀ x : Nat, ((x &&& DEVICE_IN_MASK) <<< 16) % 2 ^ 32 = (x &&& 0xFF) <<< 16 := by
    intro x
    apply Nat.eq_of_testBit_eq
    intro i
    rw [testBit_in_mask_shift]
    show _ = ((x &&& DEVICE_IN_MASK) <<< 16).testBit i
    rw [Nat.testBit_shiftLeft, Nat.testBit_and, testBit_DEVICE_IN_MASK, Bool.eq_iff_iff]
    cases hx : x.testBit (i - 16)
    · simp
    · simp
      omega
  have e : ∀ x : Nat, p x = false → x &&& AUDIO_DEVICE_BIT_IN = AUDIO_DEVICE_BIT_IN →
      convert_jb_to_ics p x
        = ((x &&& 0xFF) <<< 16)
            ||| (if x &&& AUDIO_DEVICE_IN_DEFAULT = AUDIO_DEVICE_IN_DEFAULT then
                  ICS_AUDIO_DEVICE_IN_DEFAULT else 0) := by
    intro x hx hxin
    rw [jb_to_ics_in_eq hx hxin, hmod]
    by_cases h : x &&& AUDIO_DEVICE_IN_DEFAULT = AUDIO_DEVICE_IN_DEFAULT
    · rw [if_pos h, if_pos h]
    · rw [if_neg h, if_neg h, Nat.or_zero]
  have h31 : d.testBit 31 = true := (bit_in_set_iff d).mp hin
  refine ⟨e d hp hin, ?_, ?_, ?_⟩
  · rw [and_eq_zero_iff_bits]
    intro i hi
    rw [jb_to_ics_in_bits hp h31] at hi
    rw [testBit_not32, Nat.testBit_or, testBit_old_input_flags,
      testBit_ICS_AUDIO_DEVICE_IN_DEFAULT]
    simp at hi ⊢
    omega
  · intro k hk
    rw [jb_to_ics_in_bits hp h31, Bool.eq_iff_iff]
    have e16 : 16 + k - 16 = k := by omega
    rw [e16]
    cases hdk : d.testBit k <;> simp <;> omega
  · intro d2 hp2 hin2 hlow hdef
    rw [e d hp hin, e d2 hp2 hin2, hlow]
    by_cases h : d &&& AUDIO_DEVICE_IN_DEFAULT = AUDIO_DEVICE_IN_DEFAULT
    · rw [if_pos h, if_pos (hdef.mpr h)]
    · rw [if_neg h, if_neg (fun h2 => h (hdef.mp h2))]

/-- Witness of C8 at the new-layout mask `0xC0000141` (communication, voice call, remote
submix, new default input): the result is `0x80410000`, the flag at bit 8 is dropped. -/
theorem jb_to_ics_input_mask_witness :
    (audio_is_output_devices 0xC0000141 = false
      ∧ 0xC0000141 &&& AUDIO_DEVICE_BIT_IN = AUDIO_DEVICE_BIT_IN)
    ∧ convert_jb_to_ics audio_is_output_devices 0xC0000141 = 0x80410000 :=
  ⟨⟨by decide, by decide⟩,
    (jb_to_ics_input_mask audio_is_output_devices 0xC0000141 (by decide) (by decide)).1.trans
      (by decide)⟩

/-! ## The quirk fixup (C9, C10) -/

/-- C9: with the quirk enabled, for every 32-bit mask, `fixup_audio_devices` clears the old
built-in-microphone flag and sets the old voice-call flag when the former is set, and returns
the mask unchanged otherwise; every bit other than these two is the same before and after,
and the built-in-microphone flag alone becomes the voice-call flag alone. -/
theorem fixup_effect_and_frame (b : Build) (hq : b.NO_HTC_POLICY_MANAGER = true) (x : Nat)
    (hx : x < 2 ^ 32) :
    (x &&& ICS_AUDIO_DEVICE_IN_BUILTIN_MIC = ICS_AUDIO_DEVICE_IN_BUILTIN_MIC →
      fixup_audio_devices b x
        = (x &&& not32 ICS_AUDIO_DEVICE_IN_BUILTIN_MIC) ||| ICS_AUDIO_DEVICE_IN_VOICE_CALL)
    ∧ (x &&& ICS_AUDIO_DEVICE_IN_BUILTIN_MIC ≠ ICS_AUDIO_DEVICE_IN_BUILTIN_MIC →
      fixup_audio_devices b x = x)
    ∧ (∀ i, i ≠ 18 → i ≠ 22 → (fixup_audio_devices b x).testBit i = x.testBit i)
    ∧ fixup_audio_devices b ICS_AUDIO_DEVICE_IN_BUILTIN_MIC
        = ICS_AUDIO_DEVICE_IN_VOICE_CALL := by
  refine ⟨?_, ?_, ?_, ?_⟩
  · intro h
    rw [fixup_audio_devices_enabled b hq, if_pos h]
  · intro h
    rw [fixup_audio_devices_enabled b hq, if_neg h]
  · intro i h18 h22
    rw [fixup_audio_devices_enabled b hq]
    by_cases h : x &&& ICS_AUDIO_DEVICE_IN_BUILTIN_MIC = ICS_AUDIO_DEVICE_IN_BUILTIN_MIC
    · rw [if_pos h, Nat.testBit_or, Nat.testBit_and, testBit_not32,
        testBit_ICS_AUDIO_DEVICE_IN_BUILTIN_MIC, testBit_ICS_AUDIO_DEVICE_IN_VOICE_CALL]
      cases hxi : x.testBit i
      · simp [h22]
      · have := testBit_lt_of_lt hx hxi
        simp [h18, h22, this]
    · rw [if_neg h]
  · rw [fixup_audio_devices_enabled b hq, if_pos (Nat.and_self _)]
    decide

/-- Witness of C9 at the mask `0x80050000` (communication, built-in microphone and old
default input): the result is `0x80410000`. -/
theorem fixup_effect_and_frame_witness :
    (0x80050000 : Nat) < 2 ^ 32
    ∧ fixup_audio_devices ⟨true, true⟩ 0x80050000 = 0x80410000 :=
  ⟨by decide,
    ((fixup_effect_and_frame ⟨true, true⟩ rfl 0x80050000 (by decide)).1 (by decide)).trans
      (by decide)⟩

/-- C10: `fixup_audio_devices` is idempotent on every mask, with the quirk enabled and with
it disabled; with the quirk enabled its result never has the built-in-microphone flag. -/
theorem fixup_idempotent :
    (∀ (b : Build) (x : Nat),
      fixup_audio_devices b (fixup_audio_devices b x) = fixup_audio_devices b x)
    ∧ (∀ (c : Bool) (x : Nat),
      fixup_audio_devices ⟨c, true⟩ x &&& ICS_AUDIO_DEVICE_IN_BUILTIN_MIC = 0
      ∧ fixup_audio_devices ⟨c, true⟩ x &&& ICS_AUDIO_DEVICE_IN_BUILTIN_MIC
          ≠ ICS_AUDIO_DEVICE_IN_BUILTIN_MIC) := by
  refine ⟨fixup_audio_devices_idem, ?_⟩
  intro c x
  have h18 := fixup_audio_devices_bit18 ⟨c, true⟩ rfl x
  refine ⟨?_, ?_⟩
  · rw [and_eq_zero_iff_bits]
    intro i hi
    rw [testBit_ICS_AUDIO_DEVICE_IN_BUILTIN_MIC]
    apply decide_eq_false
    intro h
    subst h
    rw [h18] at hi
    exact absurd hi (by decide)
  · rw [Ne, builtin_mic_set_iff, h18]
    decide


/-! ## Results stay 32-bit words -/

theorem not32_lt (x : Nat) : not32 x < 2 ^ 32 :=
  Nat.mod_lt _ (by decide)

theorem convert_ics_to_jb_lt {m : Nat} (hm : m < 2 ^ 32) : convert_ics_to_jb m < 2 ^ 32 := by
  have hsh : ∀ x : Nat, x < 2 ^ 32 → x >>> 16 < 2 ^ 32 := by
    intro x hx
    rw [Nat.shiftRight_eq_div_pow]
    exact Nat.lt_of_le_of_lt (Nat.div_le_self _ _) hx
  unfold convert_ics_to_jb
  split
  · split
    · exact Nat.or_lt_two_pow (Nat.and_lt_two_pow _ (not32_lt _)) (by decide)
    · exact Nat.and_lt_two_pow _ (not32_lt _)
  · split
    · split
      · exact Nat.or_lt_two_pow
          (Nat.or_lt_two_pow (hsh _ (Nat.and_lt_two_pow _ (not32_lt _))) (by decide))
          (by decide)
      · exact Nat.or_lt_two_pow (hsh _ (Nat.and_lt_two_pow _ (not32_lt _))) (by decide)
    · exact hm

theorem convert_jb_to_ics_lt (p : Nat → Bool) {d : Nat} (hd : d < 2 ^ 32) :
    convert_jb_to_ics p d < 2 ^ 32 := by
  unfold convert_jb_to_ics
  split
  · split
    · exact Nat.or_lt_two_pow (Nat.and_lt_two_pow _ (by decide)) (by decide)
    · exact Nat.and_lt_two_pow _ (by decide)
  · split
    · split
      · exact Nat.or_lt_two_pow (Nat.mod_lt _ (by decide)) (by decide)
      · exact Nat.mod_lt _ (by decide)
    · exact hd

theorem fixup_audio_devices_lt (b : Build) {x : Nat} (hx : x < 2 ^ 32) :
    fixup_audio_devices b x < 2 ^ 32 := by
  unfold fixup_audio_devices
  split
  · split
    · exact Nat.or_lt_two_pow (Nat.and_lt_two_pow _ (not32_lt _)) (by decide)
    · exact hx
  · exact hx

theorem convert_audio_devices_lt (b : Build) (p : Nat → Bool) {m : Nat} (hm : m < 2 ^ 32)
    (mode : Int) : convert_audio_devices b p m mode < 2 ^ 32 := by
  unfold convert_audio_devices
  split
  · split
    · exact convert_ics_to_jb_lt hm
    · exact hm
  · split
    · apply fixup_audio_devices_lt
      split
      · exact convert_jb_to_ics_lt p hm
      · exact hm
    · exact hm

theorem toUInt32_lt (v : Int) : toUInt32 v < 2 ^ 32 := by
  unfold toUInt32
  have h1 : 0 ≤ v % 2 ^ 32 := Int.emod_nonneg v (by decide)
  have h2 : v % 2 ^ 32 < 2 ^ 32 := Int.emod_lt_of_pos v (by decide)
  omega

theorem toInt32_emod {u : Nat} (hu : u < 2 ^ 32) : toUInt32 (toInt32 u) = u := by
  unfold toUInt32 toInt32
  rw [Nat.mod_eq_of_lt hu]
  split <;> omega

theorem toInt32_range (u : Nat) : -2 ^ 31 ≤ toInt32 u ∧ toInt32 u < 2 ^ 31 := by
  unfold toInt32
  have := Nat.mod_lt u (show 0 < 2 ^ 32 by decide)
  split <;> omega

theorem toInt32_neg_iff {u : Nat} (hu : u < 2 ^ 32) : toInt32 u < 0 ↔ 2 ^ 31 ≤ u := by
  unfold toInt32
  rw [Nat.mod_eq_of_lt hu]
  split <;> omega


/-! ## The parameter rewriter (C11, C12) -/

/-- C11: when the get-int lookup of the routing key does not succeed, `fixup_audio_parameters`
returns, for every codec, build, predicate and mode, a text equal to its argument (same
length, same characters) and makes no call to `convert_audio_devices`. -/
theorem rewrite_without_routing_key {P : Type} (c : Codec P) (b : Build) (p : Nat → Bool)
    (kv_pairs : List Char) (mode : Int)
    (h : c.getInt (c.parse kv_pairs) keyRouting = none) :
    fixup_audio_parameters c b p kv_pairs mode = kv_pairs
    ∧ (fixup_audio_parameters c b p kv_pairs mode).length = kv_pairs.length
    ∧ (fixup_audio_parameters_run c b p kv_pairs mode).2 = [] := by
  have e : fixup_audio_parameters_run c b p kv_pairs mode = (kv_pairs, []) := by
    unfold fixup_audio_parameters_run
    simp only [h]
  have e1 : fixup_audio_parameters c b p kv_pairs mode = kv_pairs := by
    unfold fixup_audio_parameters
    rw [e]
  exact ⟨e1, by rw [e1], by rw [e]⟩

/-- Witness of C11 with the codec after the spec at the blob `other=5;volume=7`. -/
theorem rewrite_without_routing_key_witness :
    specCodec.getInt (specCodec.parse "other=5;volume=7".toList) keyRouting = none
    ∧ fixup_audio_parameters specCodec ⟨true, true⟩ audio_is_output_devices
        "other=5;volume=7".toList JB_TO_ICS = "other=5;volume=7".toList :=
  ⟨by decide,
    (rewrite_without_routing_key specCodec ⟨true, true⟩ audio_is_output_devices
      "other=5;volume=7".toList JB_TO_ICS (by decide)).1⟩

/-- C12: with the codec after the spec, in every build, `fixup_audio_parameters` applied to
`routing=1234;other=5` in direction `JB_TO_ICS` returns a blob whose pairs are, in this
order, `routing` with the decimal rendering of `convert_audio_devices(1234, JB_TO_ICS)` and
`other` with `5`; the mask `1234` converts to itself, so the text is
`routing=1234;other=5`. -/
theorem rewrite_example (b : Build) :
    fixup_audio_parameters specCodec b audio_is_output_devices
        "routing=1234;other=5".toList JB_TO_ICS
      = "routing=".toList
          ++ renderInt (convert_audio_devices b audio_is_output_devices 1234 JB_TO_ICS : Nat)
          ++ ";other=5".toList
    ∧ parsePairs (fixup_audio_parameters specCodec b audio_is_output_devices
        "routing=1234;other=5".toList JB_TO_ICS)
      = [("routing".toList,
            renderInt (convert_audio_devices b audio_is_output_devices 1234 JB_TO_ICS : Nat)),
          ("other".toList, "5".toList)]
    ∧ fixup_audio_parameters specCodec b audio_is_output_devices
        "routing=1234;other=5".toList JB_TO_ICS = "routing=1234;other=5".toList := by
  obtain ⟨c, q⟩ := b
  cases c <;> cases q <;> decide


/-! ## Module loading (C13) -/

/-- The formatted name that `load_vendor_module` hands to `snprintf`. -/
theorem load_vendor_module_name {Device : Type} (PATH_MAX : Nat)
    (hw_get_module : List Char → Int × hw_module_t Device)
    (wrapper_module : hw_module_t Device) (name : List Char) (device : Option Device)
    (inst : Option (List Char)) :
    (load_vendor_module PATH_MAX hw_get_module wrapper_module name device inst).module_name
      = snprintf PATH_MAX
          (match inst with
            | some i => "vendor-".toList ++ wrapper_module.id ++ '.' :: i
            | none => "vendor-".toList ++ wrapper_module.id) := by
  unfold load_vendor_module
  cases inst <;> dsimp only <;> split_ifs <;> rfl

/-- C13, as the claim states it, fails in its last sentence: `snprintf` writes at most
`PATH_MAX - 1` characters, so with `PATH_MAX = 4096` and a wrapper module id of 4096
characters the name looked up has 4095 characters and is not `vendor-<id>`. -/
theorem load_vendor_module_counterexample :
    (load_vendor_module 4096
        (fun _ => ((0 : Int), (⟨[], fun _ d => ((0 : Int), d)⟩ : hw_module_t Unit)))
        ⟨List.replicate 4096 'a', fun _ d => ((0 : Int), d)⟩ "audio_hw_if".toList none
        none).module_name
      ≠ "vendor-".toList ++ List.replicate 4096 'a'
    ∧ (load_vendor_module 4096
        (fun _ => ((0 : Int), (⟨[], fun _ d => ((0 : Int), d)⟩ : hw_module_t Unit)))
        ⟨List.replicate 4096 'a', fun _ d => ((0 : Int), d)⟩ "audio_hw_if".toList none
        none).module_name.length = 4095 := by
  have hlen : (load_vendor_module 4096
        (fun _ => ((0 : Int), (⟨[], fun _ d => ((0 : Int), d)⟩ : hw_module_t Unit)))
        ⟨List.replicate 4096 'a', fun _ d => ((0 : Int), d)⟩ "audio_hw_if".toList none
        none).module_name.length = 4095 := by
    rw [load_vendor_module_name]
    show (List.take (4096 - 1) ("vendor-".toList ++ List.replicate 4096 'a')).length = 4095
    rw [List.length_take, List.length_append, List.length_replicate]
    rfl
  refine ⟨?_, hlen⟩
  intro h
  have h2 := congrArg List.length h
  rw [hlen, List.length_append, List.length_replicate] at h2
  exact absurd h2 (by decide)

/-- C13, amended: `load_vendor_module` returns 0 exactly when `hw_get_module` and the
module's `open` both return 0, and then leaves in `*device` what `open` put there; when
`hw_get_module` returns a nonzero code the function returns that code, does not call `open`
and sets `*device` to `NULL`; when `open` returns a nonzero code the function returns that
code and sets `*device` to `NULL`.  The name looked up is the first `PATH_MAX - 1`
characters of `vendor-<id>.<inst>` when `inst` is non-null and of `vendor-<id>` otherwise,
hence the whole of it when it is shorter than `PATH_MAX`. -/
theorem load_vendor_module_contract {Device : Type} (PATH_MAX : Nat)
    (hw_get_module : List Char → Int × hw_module_t Device)
    (wrapper_module : hw_module_t Device) (name : List Char) (device : Option Device)
    (inst : Option (List Char)) :
    let full : List Char :=
      match inst with
      | some i => "vendor-".toList ++ wrapper_module.id ++ '.' :: i
      | none => "vendor-".toList ++ wrapper_module.id
    let out := load_vendor_module PATH_MAX hw_get_module wrapper_module name device inst
    let found := hw_get_module out.module_name
    let opened := found.2.methods_open name device
    out.module_name = full.take (PATH_MAX - 1)
    ∧ (full.length < PATH_MAX → out.module_name = full)
    ∧ (out.ret = 0 ↔ found.1 = 0 ∧ opened.1 = 0)
    ∧ (found.1 = 0 → opened.1 = 0 →
        out.ret = 0 ∧ out.device = opened.2 ∧ out.open_called = true)
    ∧ (found.1 ≠ 0 →
        out.ret = found.1 ∧ out.open_called = false ∧ out.device = none)
    ∧ (found.1 = 0 → opened.1 ≠ 0 → out.ret = opened.1 ∧ out.device = none) := by
  intro full out found opened
  have hname : out.module_name = full.take (PATH_MAX - 1) :=
    load_vendor_module_name PATH_MAX hw_get_module wrapper_module name device inst
  have hout : out
      = if found.1 ≠ 0 then ⟨found.1, none, out.module_name, false⟩
        else if opened.1 ≠ 0 then ⟨opened.1, none, out.module_name, true⟩
        else ⟨0, opened.2, out.module_name, true⟩ := by
    show load_vendor_module PATH_MAX hw_get_module wrapper_module name device inst = _
    simp only [opened, found, hname, full]
    unfold load_vendor_module
    cases inst <;> rfl
  refine ⟨hname, ?_, ?_, ?_, ?_, ?_⟩
  · intro hlt
    rw [hname]
    exact List.take_of_length_le (by omega)
  · by_cases h1 : found.1 = 0
    · by_cases h2 : opened.1 = 0
      · rw [hout, if_neg (by simp [h1]), if_neg (by simp [h2])]
        simp [h1, h2]
      · rw [hout, if_neg (by simp [h1]), if_pos h2]
        simp [h1, h2]
    · rw [hout, if_pos h1]
      simp [h1]
  · intro h1 h2
    rw [hout, if_neg (by simp [h1]), if_neg (by simp [h2])]
    exact ⟨rfl, rfl, rfl⟩
  · intro h1
    rw [hout, if_pos h1]
    exact ⟨rfl, rfl, rfl⟩
  · intro h1 h2
    rw [hout, if_neg (by simp [h1]), if_pos h2]
    exact ⟨rfl, rfl⟩


/-! ## What `JB_TO_ICS` returns (C15) -/

/-- The last branch of `convert_jb_to_ics`, for an arbitrary output predicate: a mask that
the predicate rejects and that has no input marker bit is returned unchanged. -/
theorem jb_to_ics_unrecognised {p : Nat → Bool} {d : Nat} (hp : p d = false)
    (hin : d &&& AUDIO_DEVICE_BIT_IN ≠ AUDIO_DEVICE_BIT_IN) :
    convert_jb_to_ics p d = d := by
  unfold convert_jb_to_ics
  rw [if_neg (by simp [hp]), if_neg hin]

theorem fixup_audio_devices_bits (b : Build) (x i : Nat)
    (h : (fixup_audio_devices b x).testBit i = true) : x.testBit i = true ∨ i = 22 := by
  unfold fixup_audio_devices at h
  split at h
  · split at h
    · rw [Nat.testBit_or, Nat.testBit_and, testBit_ICS_AUDIO_DEVICE_IN_VOICE_CALL] at h
      simp at h
      rcases h with h | h
      · exact Or.inl h.1
      · exact Or.inr h
    · exact Or.inl h
  · exact Or.inl h

/-- With the platform predicate, a mask that is not an output mask has the input marker
bit: the last branch of `convert_jb_to_ics` is not reached. -/
theorem jb_to_ics_last_branch_unreachable (d : Nat)
    (hp : audio_is_output_devices d = false) :
    d &&& AUDIO_DEVICE_BIT_IN = AUDIO_DEVICE_BIT_IN := by
  rw [bit_in_set_iff]
  cases h31 : d.testBit 31
  · rw [(audio_is_output_devices_iff d).mpr h31] at hp
    exact absurd hp (by decide)
  · rfl

/-- C15: with layout conversion built in and the output predicate "marker bit clear", for
every mask the result of `convert_audio_devices` in direction `JB_TO_ICS` is confined to
`0x3FFF | 0x8000` when the marker bit of the mask is clear and to
`0x00FF0000 | ICS_AUDIO_DEVICE_IN_DEFAULT` when it is set, with the quirk enabled or
disabled. -/
theorem jb_to_ics_confined (b : Build) (hb : b.CONVERT_AUDIO_DEVICES_T = true) (d : Nat) :
    (d &&& AUDIO_DEVICE_BIT_IN = 0 →
      convert_audio_devices b audio_is_output_devices d JB_TO_ICS
        &&& not32 (0x3FFF ||| 0x8000) = 0)
    ∧ (d &&& AUDIO_DEVICE_BIT_IN = AUDIO_DEVICE_BIT_IN →
      convert_audio_devices b audio_is_output_devices d JB_TO_ICS
        &&& not32 (0x00FF0000 ||| ICS_AUDIO_DEVICE_IN_DEFAULT) = 0) := by
  rw [convert_audio_devices_jb_to_ics, if_pos hb]
  constructor
  · intro h
    have hp : audio_is_output_devices d = true := by
      unfold audio_is_output_devices
      rw [h]
      rfl
    have h18 : (convert_jb_to_ics audio_is_output_devices d).testBit 18 = false := by
      rw [jb_to_ics_out_bits hp]
      simp
    rw [fixup_audio_devices_of_clear b h18, and_eq_zero_iff_bits]
    intro i hi
    rw [jb_to_ics_out_bits hp] at hi
    show (not32 ICS_AUDIO_DEVICE_OUT_ALL).testBit i = false
    rw [testBit_not32, testBit_ICS_AUDIO_DEVICE_OUT_ALL]
    simp at hi ⊢
    omega
  · intro h
    have h31 : d.testBit 31 = true := (bit_in_set_iff d).mp h
    have hp : audio_is_output_devices d = false := by
      cases hc : audio_is_output_devices d
      · rfl
      · rw [audio_is_output_devices_iff, h31] at hc
        exact absurd hc (by decide)
    rw [and_eq_zero_iff_bits]
    intro i hi
    have h2 := fixup_audio_devices_bits b _ i hi
    rw [jb_to_ics_in_bits hp h31] at h2
    rw [testBit_not32, Nat.testBit_or, testBit_old_input_flags,
      testBit_ICS_AUDIO_DEVICE_IN_DEFAULT]
    simp at h2 ⊢
    omega


/-- Witness of C15 at the new-layout input mask `0xC0000104` (built-in microphone, remote
submix, new default input), quirk enabled: the result is `0x80400000`. -/
theorem jb_to_ics_confined_witness :
    0xC0000104 &&& AUDIO_DEVICE_BIT_IN = AUDIO_DEVICE_BIT_IN
    ∧ convert_audio_devices ⟨true, true⟩ audio_is_output_devices 0xC0000104 JB_TO_ICS
        = 0x80400000
    ∧ convert_audio_devices ⟨true, true⟩ audio_is_output_devices 0xC0000104 JB_TO_ICS
        &&& not32 (0x00FF0000 ||| ICS_AUDIO_DEVICE_IN_DEFAULT) = 0 :=
  ⟨by decide, by decide, (jb_to_ics_confined ⟨true, true⟩ rfl 0xC0000104).2 (by decide)⟩

/-! ## Signed storage of the routing value (C16) -/

/-- C16: when the get-int lookup of the routing key gives the value `v` (any integer, in
particular any signed 32-bit one),
`fixup_audio_parameters` writes back under the routing key, for every codec, build,
predicate and mode, the signed 32-bit integer whose value modulo `2 ^ 32` is
`convert_audio_devices(v mod 2^32, mode)`; that integer is negative exactly when the
converted mask has bit 31 set. -/
theorem routing_value_bit_pattern {P : Type} (c : Codec P) (b : Build) (p : Nat → Bool)
    (kv_pairs : List Char) (mode : Int) (v : Int)
    (hget : c.getInt (c.parse kv_pairs) keyRouting = some v) :
    fixup_audio_parameters c b p kv_pairs mode
      = c.toString (c.addInt (c.parse kv_pairs) keyRouting
          (convert_routing_value b p v mode))
    ∧ (fixup_audio_parameters_run c b p kv_pairs mode).2 = [((v % 2 ^ 32).toNat, mode)]
    ∧ (-2 ^ 31 ≤ convert_routing_value b p v mode ∧ convert_routing_value b p v mode < 2 ^ 31)
    ∧ (convert_routing_value b p v mode % 2 ^ 32).toNat
        = convert_audio_devices b p (v % 2 ^ 32).toNat mode
    ∧ (convert_routing_value b p v mode < 0
        ↔ (convert_audio_devices b p (v % 2 ^ 32).toNat mode).testBit 31 = true) := by
  have e : fixup_audio_parameters_run c b p kv_pairs mode
      = (c.toString (c.addInt (c.parse kv_pairs) keyRouting
          (convert_routing_value b p v mode)), [(toUInt32 v, mode)]) := by
    unfold fixup_audio_parameters_run
    simp only [hget]
  have hlt : convert_audio_devices b p (toUInt32 v) mode < 2 ^ 32 :=
    convert_audio_devices_lt b p (toUInt32_lt v) mode
  refine ⟨?_, ?_, ?_, ?_, ?_⟩
  · unfold fixup_audio_parameters
    rw [e]
  · rw [e]
    rfl
  · exact toInt32_range _
  · exact toInt32_emod hlt
  · show toInt32 (convert_audio_devices b p (toUInt32 v) mode) < 0
      ↔ (convert_audio_devices b p (toUInt32 v) mode).testBit 31 = true
    rw [toInt32_neg_iff hlt]
    constructor
    · intro h
      rw [Nat.testBit_to_div_mod]
      apply decide_eq_true
      omega
    · intro h
      exact Nat.testBit_implies_ge h

/-- Witness of C16 with the codec after the spec: the old communication input flag `65536`
is converted in direction `ICS_TO_JB` to the mask `0x80000001`, stored as `-2147483647`. -/
theorem routing_value_bit_pattern_witness :
    specCodec.getInt (specCodec.parse "routing=65536".toList) keyRouting = some 65536
    ∧ convert_audio_devices ⟨true, true⟩ audio_is_output_devices 65536 ICS_TO_JB = 0x80000001
    ∧ fixup_audio_parameters specCodec ⟨true, true⟩ audio_is_output_devices
        "routing=65536".toList ICS_TO_JB = "routing=-2147483647".toList :=
  ⟨by decide, by decide,
    (routing_value_bit_pattern specCodec ⟨true, true⟩ audio_is_output_devices
      "routing=65536".toList ICS_TO_JB 65536 (by decide)).1.trans (by decide)⟩

/-! ## Builds without layout conversion (C17) -/

/-- C17: in a build without `CONVERT_AUDIO_DEVICES_T`, for every mask,
`convert_audio_devices` returns the mask in direction `ICS_TO_JB` and `fixup_audio_devices`
of the mask in direction `JB_TO_ICS`; with the quirk disabled as well it returns the mask for
every mode. -/
theorem conversion_disabled_passes_through :
    (∀ (q : Bool) (p : Nat → Bool) (m : Nat),
      convert_audio_devices ⟨false, q⟩ p m ICS_TO_JB = m
      ∧ convert_audio_devices ⟨false, q⟩ p m JB_TO_ICS = fixup_audio_devices ⟨false, q⟩ m)
    ∧ (∀ (p : Nat → Bool) (m : Nat) (mode : Int),
      convert_audio_devices ⟨false, false⟩ p m mode = m) := by
  constructor
  · intro q p m
    rw [convert_audio_devices_ics_to_jb, convert_audio_devices_jb_to_ics]
    exact ⟨rfl, rfl⟩
  · intro p m mode
    unfold convert_audio_devices
    split
    · rfl
    · split
      · exact fixup_audio_devices_disabled _ rfl m
      · rfl


/-! ## Direction of a converted mask (C18) -/

/-- A non-zero word confined to the old input range has a bit outside the old output
range. -/
theorem in_range_not_out {m : Nat} (hm : m < 2 ^ 32) (h0 : m ≠ 0)
    (hin : m &&& not32 ICS_AUDIO_DEVICE_IN_ALL = 0) :
    m &&& not32 ICS_AUDIO_DEVICE_OUT_ALL ≠ 0 := by
  obtain ⟨i, hi⟩ := Nat.ne_zero_implies_bit_true h0
  have hr := in_range_bits hm hin i hi
  rw [and_ne_zero_iff_bits]
  refine ⟨i, hi, ?_⟩
  rw [testBit_not32, testBit_ICS_AUDIO_DEVICE_OUT_ALL]
  simp
  omega

/-- C18: for every 32-bit old-layout mask, `convert_ics_to_jb` gives a mask with the input
marker bit clear when the mask is confined to the old output range (zero included), and a
mask with the input marker bit set and bits 8–29 clear when the mask is non-zero and
confined to the old input range. -/
theorem ics_to_jb_preserves_direction (m : Nat) (hm : m < 2 ^ 32) :
    (m &&& not32 ICS_AUDIO_DEVICE_OUT_ALL = 0 →
      convert_ics_to_jb m &&& AUDIO_DEVICE_BIT_IN = 0)
    ∧ (m ≠ 0 → m &&& not32 ICS_AUDIO_DEVICE_IN_ALL = 0 →
      convert_ics_to_jb m &&& AUDIO_DEVICE_BIT_IN = AUDIO_DEVICE_BIT_IN
      ∧ ∀ i, 8 ≤ i → i ≤ 29 → (convert_ics_to_jb m).testBit i = false) := by
  constructor
  · intro hout
    rw [and_eq_zero_iff_bits]
    intro i hi
    rw [ics_to_jb_out_bits hm hout] at hi
    rw [testBit_AUDIO_DEVICE_BIT_IN]
    apply decide_eq_false
    intro h31
    subst h31
    have h31m : m.testBit 31 = false := by
      cases h : m.testBit 31
      · rfl
      · have := out_range_bits hm hout 31 h
        omega
    simp [h31m] at hi
  · intro h0 hin
    have hnout := in_range_not_out hm h0 hin
    constructor
    · rw [bit_in_set_iff, ics_to_jb_in_bits hm hnout hin]
      rfl
    · intro i h8 h29
      rw [ics_to_jb_in_bits hm hnout hin]
      simp
      omega

/-- Witness of C18 at the old input mask `0x80410000` (communication, voice call, old
default input): the result is `0xC0000041`. -/
theorem ics_to_jb_preserves_direction_witness :
    ((0x80410000 : Nat) < 2 ^ 32 ∧ (0x80410000 : Nat) ≠ 0
      ∧ 0x80410000 &&& not32 ICS_AUDIO_DEVICE_IN_ALL = 0)
    ∧ convert_ics_to_jb 0x80410000 = 0xC0000041
    ∧ convert_ics_to_jb 0x80410000 &&& AUDIO_DEVICE_BIT_IN = AUDIO_DEVICE_BIT_IN :=
  ⟨⟨by decide, by decide, by decide⟩, by decide,
    ((ics_to_jb_preserves_direction 0x80410000 (by decide)).2 (by decide) (by decide)).1⟩


/-! ## The reverse round trip (C19) -/

theorem out_reverse_round_trip {d : Nat}
    (hd : ∀ i, d.testBit i = true → i < 14 ∨ i = 30) :
    convert_ics_to_jb (convert_jb_to_ics audio_is_output_devices d) = d := by
  have h31 : d.testBit 31 = false := by
    cases h : d.testBit 31
    · rfl
    · have := hd 31 h
      omega
  have hp : audio_is_output_devices d = true := (audio_is_output_devices_iff d).mpr h31
  have hlt : convert_jb_to_ics audio_is_output_devices d < 2 ^ 32 := by
    apply Nat.lt_pow_two_of_testBit
    intro i hi
    rw [jb_to_ics_out_bits hp]
    simp
    omega
  have hout : convert_jb_to_ics audio_is_output_devices d
      &&& not32 ICS_AUDIO_DEVICE_OUT_ALL = 0 := by
    rw [and_eq_zero_iff_bits]
    intro i hi
    rw [jb_to_ics_out_bits hp] at hi
    rw [testBit_not32, testBit_ICS_AUDIO_DEVICE_OUT_ALL]
    simp at hi ⊢
    omega
  apply Nat.eq_of_testBit_eq
  intro i
  rw [ics_to_jb_out_bits hlt hout, jb_to_ics_out_bits hp, jb_to_ics_out_bits hp,
    Bool.eq_iff_iff]
  have hi := hd i
  by_cases h30 : i = 30
  · subst h30
    simp
  · cases hb : d.testBit i <;> simp [hb, h30] at hi ⊢ <;> omega

theorem in_reverse_round_trip {d : Nat} (h31 : d.testBit 31 = true)
    (hd : ∀ i, d.testBit i = true → i < 8 ∨ i = 30 ∨ i = 31)
    (hf : (∃ j, j < 8 ∧ d.testBit j = true) ∨ d.testBit 30 = true) :
    convert_ics_to_jb (convert_jb_to_ics audio_is_output_devices d) = d := by
  have hp : audio_is_output_devices d = false := by
    cases hc : audio_is_output_devices d
    · rfl
    · rw [audio_is_output_devices_iff, h31] at hc
      exact absurd hc (by decide)
  have hlt : convert_jb_to_ics audio_is_output_devices d < 2 ^ 32 :=
    convert_jb_to_ics_lt _ (by
      apply Nat.lt_pow_two_of_testBit
      intro i hi
      cases h : d.testBit i
      · rfl
      · have := hd i h
        omega)
  have hin : convert_jb_to_ics audio_is_output_devices d
      &&& not32 ICS_AUDIO_DEVICE_IN_ALL = 0 := by
    rw [and_eq_zero_iff_bits]
    intro i hi
    rw [jb_to_ics_in_bits hp h31] at hi
    rw [testBit_not32, testBit_ICS_AUDIO_DEVICE_IN_ALL]
    simp at hi ⊢
    omega
  have hnout : convert_jb_to_ics audio_is_output_devices d
      &&& not32 ICS_AUDIO_DEVICE_OUT_ALL ≠ 0 := by
    rw [and_ne_zero_iff_bits]
    rcases hf with ⟨j, hj, hdj⟩ | h30
    · refine ⟨16 + j, ?_, ?_⟩
      · rw [jb_to_ics_in_bits hp h31]
        have e : 16 + j - 16 = j := by omega
        rw [e, hdj]
        simp
        omega
      · rw [testBit_not32, testBit_ICS_AUDIO_DEVICE_OUT_ALL]
        simp
        omega
    · refine ⟨31, ?_, ?_⟩
      · rw [jb_to_ics_in_bits hp h31, h30]
        rfl
      · rw [testBit_not32, testBit_ICS_AUDIO_DEVICE_OUT_ALL]
        rfl
  apply Nat.eq_of_testBit_eq
  intro i
  rw [ics_to_jb_in_bits hlt hnout hin, jb_to_ics_in_bits hp h31, jb_to_ics_in_bits hp h31,
    Bool.eq_iff_iff]
  have hi := hd i
  have e : 16 + i - 16 = i := by omega
  rw [e]
  by_cases hi31 : i = 31
  · subst hi31
    simp [h31]
  · by_cases hi30 : i = 30
    · subst hi30
      simp
    · cases hb : d.testBit i <;> simp [hb, hi30, hi31] at hi ⊢ <;> omega


/-- C19: with layout conversion built in and the quirk disabled, `JB_TO_ICS` followed by
`ICS_TO_JB` returns every new-layout output mask confined to
`0x3FFF | AUDIO_DEVICE_OUT_DEFAULT`, and every new-layout input mask
`AUDIO_DEVICE_BIT_IN | f` with `f` non-zero and confined to `0xFF`, with or without
`AUDIO_DEVICE_IN_DEFAULT`, unchanged. -/
theorem reverse_round_trip (b : Build) (hb : b.CONVERT_AUDIO_DEVICES_T = true)
    (hq : b.NO_HTC_POLICY_MANAGER = false) :
    (∀ d, d < 2 ^ 32 → d &&& not32 (0x3FFF ||| AUDIO_DEVICE_OUT_DEFAULT) = 0 →
      convert_audio_devices b audio_is_output_devices
        (convert_audio_devices b audio_is_output_devices d JB_TO_ICS) ICS_TO_JB = d)
    ∧ (∀ f, f ≠ 0 → f < 2 ^ 32 → f &&& not32 0xFF = 0 →
      convert_audio_devices b audio_is_output_devices
          (convert_audio_devices b audio_is_output_devices (AUDIO_DEVICE_BIT_IN ||| f)
            JB_TO_ICS) ICS_TO_JB = AUDIO_DEVICE_BIT_IN ||| f
      ∧ convert_audio_devices b audio_is_output_devices
          (convert_audio_devices b audio_is_output_devices
            (AUDIO_DEVICE_BIT_IN ||| f ||| AUDIO_DEVICE_IN_DEFAULT) JB_TO_ICS) ICS_TO_JB
        = AUDIO_DEVICE_BIT_IN ||| f ||| AUDIO_DEVICE_IN_DEFAULT) := by
  have e : ∀ d, convert_audio_devices b audio_is_output_devices
        (convert_audio_devices b audio_is_output_devices d JB_TO_ICS) ICS_TO_JB
      = convert_ics_to_jb (convert_jb_to_ics audio_is_output_devices d) := by
    intro d
    rw [convert_audio_devices_jb_to_ics, convert_audio_devices_ics_to_jb, if_pos hb, if_pos hb,
      fixup_audio_devices_disabled b hq]
  constructor
  · intro d hd hc
    rw [e]
    apply out_reverse_round_trip
    intro i hi
    have h1 := and_eq_zero_iff_bits.mp hc i hi
    have h2 := testBit_lt_of_lt hd hi
    rw [testBit_not32, Nat.testBit_or, testBit_AUDIO_DEVICE_OUT_DEFAULT] at h1
    have h3 : Nat.testBit 0x3FFF i = decide (i < 14) := testBit_DEVICE_OUT_MASK i
    rw [h3] at h1
    simp at h1
    omega
  · intro f h0 hf hc
    have hfb : ∀ i, f.testBit i = true → i < 8 := by
      intro i hi
      have h1 := and_eq_zero_iff_bits.mp hc i hi
      have h2 := testBit_lt_of_lt hf hi
      have h3 : Nat.testBit 0xFF i = decide (i < 8) := testBit_DEVICE_IN_MASK i
      rw [testBit_not32, h3] at h1
      simp at h1
      omega
    obtain ⟨j, hj⟩ := Nat.ne_zero_implies_bit_true h0
    rw [e, e]
    constructor
    · apply in_reverse_round_trip
      · rw [Nat.testBit_or, testBit_AUDIO_DEVICE_BIT_IN]
        rfl
      · intro i hi
        rw [Nat.testBit_or, testBit_AUDIO_DEVICE_BIT_IN] at hi
        simp at hi
        rcases hi with hi | hi
        · omega
        · have := hfb i hi
          omega
      · refine Or.inl ⟨j, hfb j hj, ?_⟩
        rw [Nat.testBit_or, hj]
        simp
    · apply in_reverse_round_trip
      · rw [Nat.testBit_or, Nat.testBit_or, testBit_AUDIO_DEVICE_BIT_IN]
        rfl
      · intro i hi
        rw [Nat.testBit_or, Nat.testBit_or, testBit_AUDIO_DEVICE_BIT_IN,
          testBit_AUDIO_DEVICE_IN_DEFAULT] at hi
        simp at hi
        rcases hi with (hi | hi) | hi
        · omega
        · have := hfb i hi
          omega
        · omega
      · refine Or.inl ⟨j, hfb j hj, ?_⟩
        rw [Nat.testBit_or, Nat.testBit_or, hj]
        simp

/-- Witness of C19 at the new-layout input mask `0xC0000041` (communication, voice call, new
default input) in the build with conversion and without the quirk. -/
theorem reverse_round_trip_witness :
    ((0x41 : Nat) ≠ 0 ∧ (0x41 : Nat) < 2 ^ 32 ∧ 0x41 &&& not32 0xFF = 0)
    ∧ AUDIO_DEVICE_BIT_IN ||| 0x41 ||| AUDIO_DEVICE_IN_DEFAULT = 0xC0000041
    ∧ convert_audio_devices ⟨true, false⟩ audio_is_output_devices
        (convert_audio_devices ⟨true, false⟩ audio_is_output_devices
          (AUDIO_DEVICE_BIT_IN ||| 0x41 ||| AUDIO_DEVICE_IN_DEFAULT) JB_TO_ICS) ICS_TO_JB
      = AUDIO_DEVICE_BIT_IN ||| 0x41 ||| AUDIO_DEVICE_IN_DEFAULT :=
  ⟨⟨by decide, by decide, by decide⟩, by decide,
    ((reverse_round_trip ⟨true, false⟩ rfl rfl).2 0x41 (by decide) (by decide)
      (by decide)).2⟩

/-! ## The quirk and the output direction (C20) -/

/-- C20: with layout conversion built in, for every new-layout mask with the input marker
bit clear, `convert_audio_devices` in direction `JB_TO_ICS` returns the same value in the
build with `NO_HTC_POLICY_MANAGER` and in the build without it; and in direction `ICS_TO_JB`
it returns the same value in both builds for every mask. -/
theorem quirk_leaves_output_conversion (d : Nat) (hd : d &&& AUDIO_DEVICE_BIT_IN = 0) :
    convert_audio_devices ⟨true, true⟩ audio_is_output_devices d JB_TO_ICS
      = convert_audio_devices ⟨true, false⟩ audio_is_output_devices d JB_TO_ICS
    ∧ ∀ (p : Nat → Bool) (m : Nat),
        convert_audio_devices ⟨true, true⟩ p m ICS_TO_JB
          = convert_audio_devices ⟨true, false⟩ p m ICS_TO_JB := by
  constructor
  · have hp : audio_is_output_devices d = true := by
      unfold audio_is_output_devices
      rw [hd]
      rfl
    have h18 : (convert_jb_to_ics audio_is_output_devices d).testBit 18 = false := by
      rw [jb_to_ics_out_bits hp]
      simp
    rw [convert_audio_devices_jb_to_ics, convert_audio_devices_jb_to_ics, if_pos rfl,
      fixup_audio_devices_of_clear _ h18, fixup_audio_devices_of_clear _ h18]
  · intro p m
    rw [convert_audio_devices_ics_to_jb, convert_audio_devices_ics_to_jb]

/-- Witness of C20 at the new-layout output mask `0x40044002`, whose bit 18 is dropped by the
conversion before the fixup sees it: both builds return `0x8002`. -/
theorem quirk_leaves_output_conversion_witness :
    0x40044002 &&& AUDIO_DEVICE_BIT_IN = 0
    ∧ convert_audio_devices ⟨true, false⟩ audio_is_output_devices 0x40044002 JB_TO_ICS = 0x8002
    ∧ convert_audio_devices ⟨true, true⟩ audio_is_output_devices 0x40044002 JB_TO_ICS
        = convert_audio_devices ⟨true, false⟩ audio_is_output_devices 0x40044002 JB_TO_ICS :=
  ⟨by decide, by decide, (quirk_leaves_output_conversion 0x40044002 (by decide)).1⟩

end AudioWrapper
